import Mathlib

/-!
Canary persistence layer: `DBResult::getNumber`, `Database::isRecoverableError`,
`DBTransaction` and `DBInsert` (src/database/database.hpp), their callers in
`IOLoginData` (src/io/iologindata.cpp), the action registry `Actions`
(src/lua/creature/actions.cpp) and `House` (src/map/house/house.cpp).

A shallow embedding of the header-defined parts of the database layer.

* Machine integers are `Int`/`Nat` with explicit wrapping (`static_cast`).
* C strings are `List Char`; a nullable cell is an `Option`.
* C++ exceptions are values of `Except Exception _`; a `try`/`catch` is a `match`
  on the thrown value.
* The logger and the backend session are explicit state.
* Functions that are declared in the header but whose bodies are not among the
  sources are parameters, or are modelled from the specification and marked so.
-/

namespace Canary

/-! ## Exceptions and the logger -/

/-- The values a C++ `throw` can carry here.  All constructors but `non_std`
are classes derived from `std::exception`. -/
inductive Exception where
  | invalid_argument (what : String)
  | out_of_range (what : String)
  | DatabaseException (message : String)
  | std_exception (what : String)
  | non_std
  deriving DecidableEq, Repr

/-- Does `catch (const std::exception &)` match the thrown value? -/
def Exception.isStd : Exception → Bool
  | .non_std => false
  | _ => true

/-- The text returned by `what()`. -/
def Exception.what : Exception → String
  | .invalid_argument w => w
  | .out_of_range w => w
  | .DatabaseException m => m
  | .std_exception w => w
  | .non_std => ""

/-- One line of the logger, as `InMemoryLogger::LogEntry`. -/
structure LogEntry where
  level : String
  message : String
  deriving DecidableEq, Repr

/-- The logger state: `InMemoryLogger::logs`. -/
abbrev Logger := List LogEntry

/-- The call `InMemoryLogger::log(lvl, msg)`: `logs.push_back({lvl, msg})`. -/
def Logger.log (logs : Logger) (lvl msg : String) : Logger :=
  logs ++ [{ level := lvl, message := msg }]

/-- The call `g_logger().error(msg)`. -/
def Logger.error (logs : Logger) (msg : String) : Logger :=
  logs.log "error" msg

/-! ## The standard conversions `std::stoi`, `std::stol`, `std::stoll`,
`std::stoul`, `std::stoull` (base 10) -/

/-- The width of `long` is the one thing the data model of the platform decides:
64 bits on LP64 (Linux, macOS), 32 bits on LLP64 (Windows). -/
inductive DataModel where
  | LP64
  | LLP64
  deriving DecidableEq, Repr

/-- Bits of `long` and `unsigned long`. -/
def DataModel.longBits : DataModel → Nat
  | .LP64 => 64
  | .LLP64 => 32

/-- The predicate `isspace` of the "C" locale. -/
def isspace (c : Char) : Bool :=
  [' ', '\t', '\n', '\x0b', '\x0c', '\r'].contains c

/-- The predicate `isdigit`. -/
def isdigit (c : Char) : Bool :=
  decide (48 ≤ c.toNat) && decide (c.toNat ≤ 57)

/-- Value of a run of decimal digits, most significant first, continuing `acc`. -/
def digitsValue (ds : List Char) (acc : Nat) : Nat :=
  ds.foldl (fun a c => 10 * a + (c.toNat - 48)) acc

/-- The optional sign of the subject sequence: `(negative, rest)`. -/
def splitSign : List Char → Bool × List Char
  | '-' :: rest => (true, rest)
  | '+' :: rest => (false, rest)
  | s => (false, s)

/-- The subject sequence `strtol`/`strtoul` recognise in base 10: leading
white space is skipped, then an optional sign, then the longest run of digits.
`none` when the run is empty (no conversion can be performed), else the sign and
the magnitude of the number read.  What follows the digits is ignored. -/
def scanNumber (s : List Char) : Option (Bool × Nat) :=
  let body := splitSign (s.dropWhile isspace)
  let ds := body.2.takeWhile isdigit
  if ds.isEmpty then none else some (body.1, digitsValue ds 0)

/-- Signed conversion to a type of `bits` bits (`strtol`/`strtoll` and the
range check of `std::sto*`): `invalid_argument` when no conversion can be
performed, `out_of_range` when the number read is outside the type. -/
def stoSigned (fn : String) (bits : Nat) (s : List Char) : Except Exception Int :=
  match scanNumber s with
  | none => .error (.invalid_argument fn)
  | some (neg, m) =>
    let v : Int := if neg then -(m : Int) else (m : Int)
    if v < -(2 : Int) ^ (bits - 1) ∨ (2 : Int) ^ (bits - 1) - 1 < v then
      .error (.out_of_range fn)
    else .ok v

/-- Unsigned conversion to a type of `bits` bits (`strtoul`/`strtoull`):
the magnitude must fit the type, and a leading minus sign negates the value in
the unsigned type, without an error. -/
def stoUnsigned (fn : String) (bits : Nat) (s : List Char) : Except Exception Int :=
  match scanNumber s with
  | none => .error (.invalid_argument fn)
  | some (neg, m) =>
    if 2 ^ bits ≤ m then .error (.out_of_range fn)
    else .ok (if neg then (((2 ^ bits - m) % 2 ^ bits : Nat) : Int) else (m : Int))

/-- The function `std::stoi`: the result type is `int`, 32 bits. -/
def stoi (s : List Char) : Except Exception Int := stoSigned "stoi" 32 s

/-- The function `std::stol`: the result type is `long`. -/
def stol (dm : DataModel) (s : List Char) : Except Exception Int :=
  stoSigned "stol" dm.longBits s

/-- The function `std::stoll`: the result type is `long long`, 64 bits. -/
def stoll (s : List Char) : Except Exception Int := stoSigned "stoll" 64 s

/-- The function `std::stoul`: the result type is `unsigned long`. -/
def stoul (dm : DataModel) (s : List Char) : Except Exception Int :=
  stoUnsigned "stoul" dm.longBits s

/-- The function `std::stoull`: the result type is `unsigned long long`. -/
def stoull (s : List Char) : Except Exception Int := stoUnsigned "stoull" 64 s

/-! ## `DBResult::getNumber<T>` -/

/-- The types `T` at which `getNumber<T>` is instantiated. -/
inductive NumType where
  | int8 | int16 | int32 | int64
  | uint8 | uint16 | uint32 | uint64
  | bool
  deriving DecidableEq, Repr

/-- The trait `std::is_signed_v<T>`. -/
def NumType.isSigned : NumType → Bool
  | .int8 | .int16 | .int32 | .int64 => true
  | _ => false

/-- Width of `T` in bits (`bool` holds one bit of value). -/
def NumType.bits : NumType → Nat
  | .int8 | .uint8 => 8
  | .int16 | .uint16 => 16
  | .int32 | .uint32 => 32
  | .int64 | .uint64 => 64
  | .bool => 1

/-- Least value of `T`. -/
def NumType.minValue (T : NumType) : Int :=
  if T.isSigned then -(2 : Int) ^ (T.bits - 1) else 0

/-- Greatest value of `T`. -/
def NumType.maxValue (T : NumType) : Int :=
  if T.isSigned then (2 : Int) ^ (T.bits - 1) - 1 else (2 : Int) ^ T.bits - 1

/-- The value `v` is representable in `T`. -/
def NumType.representable (T : NumType) (v : Int) : Prop :=
  T.minValue ≤ v ∧ v ≤ T.maxValue

instance (T : NumType) (v : Int) : Decidable (T.representable v) := by
  unfold NumType.representable; exact inferInstance

/-- The value-initialised `T()`: zero, `false` for `bool`. -/
def NumType.zero (_T : NumType) : Int := 0

/-- The conversion `static_cast<T>(x)` of an integer: modulo `2 ^ bits` into the
range of `T`; for `bool`, whether `x` is non-zero. -/
def staticCast (T : NumType) (x : Int) : Int :=
  match T with
  | .bool => if x = 0 then 0 else 1
  | _ =>
    if T.isSigned then (x + 2 ^ (T.bits - 1)) % 2 ^ T.bits - 2 ^ (T.bits - 1)
    else x % 2 ^ T.bits

/-- A result set positioned on a row: `listNames` maps a column name to its
index, `row` is the `MYSQL_ROW`, an array of nullable C strings. -/
structure DBResult where
  listNames : List (String × Nat)
  row : Nat → Option (List Char)

/-- The body of the `try` block of `getNumber<T>`: the conversion selected by the
`if constexpr` chain, followed by the `static_cast<T>`. -/
def convertCell (dm : DataModel) (T : NumType) (cell : List Char) : Except Exception Int :=
  match T with
  | .int8 | .int16 => (stoi cell).map (staticCast T)
  | .int32 => (stol dm cell).map (staticCast T)
  | .int64 => (stoll cell).map (staticCast T)
  | .bool => (stoi cell).map (staticCast T)
  | .uint8 | .uint16 | .uint32 => (stoul dm cell).map (staticCast T)
  | .uint64 => (stoull cell).map (staticCast T)

/-- The member `DBResult::getNumber<T>(s)`, with the logger as state. -/
def DBResult.getNumber (dm : DataModel) (T : NumType) (self : DBResult) (s : String)
    (logger : Logger) : Except Exception Int × Logger :=
  match self.listNames.lookup s with
  | none =>
    (.ok T.zero,
      logger.error ("[DBResult::getNumber] - Column '" ++ s ++ "' doesn't exist in the result set"))
  | some idx =>
    match self.row idx with
    | none => (.ok T.zero, logger)
    | some cell =>
      match convertCell dm T cell with
      | .ok data => (.ok data, logger)
      | .error (.invalid_argument what) =>
        (.ok T.zero,
          logger.error ("Column '" ++ s ++ "' has an invalid value set, error code: " ++ what))
      | .error (.out_of_range what) =>
        (.ok T.zero,
          logger.error ("Column '" ++ s ++ "' has a value out of range, error code: " ++ what))
      | .error e => (.error e, logger)

/-- The decimal text of an integer, as `std::to_string` writes it. -/
def decimalText (v : Int) : List Char := (toString v).data

/-- A non-empty run of decimal digits whose value is `n`. -/
def IsDigitRun (run : List Char) (n : Nat) : Prop :=
  run ≠ [] ∧ (∀ c ∈ run, isdigit c = true) ∧ digitsValue run 0 = n

/-- The text holds no number to read: once leading white space and one optional
sign are removed, it is empty or begins with a character that is not a digit
(`"abc"`, `""`, `"  -x1"`). -/
def nonNumeric (s : List Char) : Prop :=
  ∀ c ∈ (splitSign (s.dropWhile isspace)).2.head?, isdigit c = false

/-! ## `Database::isRecoverableError` -/

/-- Modelled from the spec: the client error codes come from the header of the
backend client library (`errmsg.h`), which is not among the sources; the values
are the ones the contract names (connection-lost 2013, server-gone 2006,
connection-to-host-failed 2003, generic-connection-error 2002). -/
def CR_SERVER_LOST : Nat := 2013

/-- Modelled from the spec: client error code `CR_SERVER_GONE_ERROR` of the client
library header, not among the sources. -/
def CR_SERVER_GONE_ERROR : Nat := 2006

/-- Modelled from the spec: client error code `CR_CONN_HOST_ERROR` of the client
library header, not among the sources. -/
def CR_CONN_HOST_ERROR : Nat := 2003

/-- Modelled from the spec: client error code `CR_CONNECTION_ERROR` of the client
library header, not among the sources. -/
def CR_CONNECTION_ERROR : Nat := 2002

/-- The member `Database::isRecoverableError(error)`. -/
def Database.isRecoverableError (error : Nat) : Bool :=
  error == CR_SERVER_LOST || error == CR_SERVER_GONE_ERROR || error == CR_CONN_HOST_ERROR
    || error == 1053 || error == CR_CONNECTION_ERROR

/-- A result set with the single column `name` whose current cell is `cell`. -/
def DBResult.single (name : String) (cell : Option (List Char)) : DBResult :=
  { listNames := [(name, 0)], row := fun i => if i = 0 then cell else none }

/-! ## `DBTransaction` -/

/-- Modelled from the spec: the enumeration `TransactionStates_t` is declared in
declarations.hpp, which is not among the sources; its three values are the states
NOT_STARTED, STARTED and COMMITTED under the names the code uses. -/
inductive TransactionStates_t where
  | STATE_NO_START
  | STATE_START
  | STATE_COMMIT
  deriving DecidableEq, Repr

/-- The calls the transaction code makes: the three private primitives of
`Database` (which issue BEGIN, ROLLBACK and COMMIT) and the unit of work. -/
inductive Call where
  | beginTransaction
  | rollback
  | commit
  | toBeExecuted
  deriving DecidableEq, Repr

/-- The state the transaction code runs in: the backend session behind the
singleton `Database`, the calls made so far, and the logger. -/
structure Session (σ : Type) where
  db : σ
  calls : List Call
  logger : Logger
  deriving DecidableEq, Repr

/-- The private primitives `Database::beginTransaction`, `Database::rollback` and
`Database::commit`, whose bodies are not among the sources: each is any function
of the backend state that returns a `bool` or throws. -/
structure Backend (σ : Type) where
  beginTransaction : σ → Except Exception Bool × σ
  rollback : σ → Except Exception Bool × σ
  commit : σ → Except Exception Bool × σ

/-- A unit of work: the callable `toBeExecuted`, returning a `bool` or throwing. -/
abbrev UnitOfWork (σ : Type) := Session σ → Except Exception Bool × Session σ

/-- The session after the call of a `Database` primitive that left the backend
in state `db`. -/
def Session.called (w : Session σ) (c : Call) (db : σ) : Session σ :=
  { w with db := db, calls := w.calls ++ [c] }

/-- The call `g_logger().error(msg)` in a session. -/
def Session.logError (w : Session σ) (msg : String) : Session σ :=
  { w with logger := w.logger.error msg }

/-- The member `DBTransaction::begin()`: result, new `state`, new session. -/
def DBTransaction.begin (B : Backend σ) (state : TransactionStates_t) (w : Session σ) :
    Except Exception Bool × TransactionStates_t × Session σ :=
  if state ≠ .STATE_NO_START then (.ok false, state, w)
  else
    let r := B.beginTransaction w.db
    let w1 := w.called .beginTransaction r.2
    match r.1 with
    | .ok b => (.ok b, .STATE_START, w1)
    | .error e =>
      if e.isStd then
        (.ok false, .STATE_NO_START,
          w1.logError ("[begin] An error occurred while starting the transaction, error: "
            ++ e.what))
      else (.error e, .STATE_START, w1)

/-- The member `DBTransaction::rollback()`. -/
def DBTransaction.rollback (B : Backend σ) (state : TransactionStates_t) (w : Session σ) :
    Except Exception Unit × TransactionStates_t × Session σ :=
  if state ≠ .STATE_START then (.ok (), state, w)
  else
    let r := B.rollback w.db
    let w1 := w.called .rollback r.2
    match r.1 with
    | .ok _ => (.ok (), .STATE_NO_START, w1)
    | .error e =>
      if e.isStd then
        (.ok (), .STATE_NO_START,
          w1.logError ("[rollback] An error occurred while rolling back the transaction, error: "
            ++ e.what))
      else (.error e, .STATE_NO_START, w1)

/-- The member `DBTransaction::commit()`. -/
def DBTransaction.commit (B : Backend σ) (state : TransactionStates_t) (w : Session σ) :
    Except Exception Unit × TransactionStates_t × Session σ :=
  if state ≠ .STATE_START then
    (.ok (), state, w.logError "Transaction not started")
  else
    let r := B.commit w.db
    let w1 := w.called .commit r.2
    match r.1 with
    | .ok _ => (.ok (), .STATE_COMMIT, w1)
    | .error e =>
      if e.isStd then
        (.ok (), .STATE_NO_START,
          w1.logError ("[commit] An error occurred while committing the transaction, error: "
            ++ e.what))
      else (.error e, .STATE_COMMIT, w1)

/-- The handler `catch (const std::exception &exception)` of
`executeWithinTransaction`, entered with the thrown value `e`; a value that is not
a `std::exception` is not caught and propagates. -/
def DBTransaction.onThrow (B : Backend σ) (e : Exception) (state : TransactionStates_t)
    (w : Session σ) : Except Exception Bool × Session σ :=
  if e.isStd then
    let r := DBTransaction.rollback B state w
    match r.1 with
    | .error e2 => (.error e2, r.2.2)
    | .ok _ =>
      (.ok false,
        r.2.2.logError
          ("[executeWithinTransaction] Error occurred committing transaction, error: "
            ++ e.what))
  else (.error e, w)

/-- The session in which the unit of work is entered: the call is recorded. -/
def Session.enterUnit (w : Session σ) : Session σ :=
  { w with calls := w.calls ++ [.toBeExecuted] }

/-- The static member `DBTransaction::executeWithinTransaction(toBeExecuted)`: a
fresh `DBTransaction` (state `STATE_NO_START`), then the `try` block, each throw
inside it handled by `onThrow`. -/
def DBTransaction.executeWithinTransaction (B : Backend σ) (toBeExecuted : UnitOfWork σ)
    (w : Session σ) : Except Exception Bool × Session σ :=
  let b := DBTransaction.begin B .STATE_NO_START w
  match b.1 with
  | .error e => DBTransaction.onThrow B e b.2.1 b.2.2
  | .ok _ =>
    let u := toBeExecuted b.2.2.enterUnit
    match u.1 with
    | .error e => DBTransaction.onThrow B e b.2.1 u.2
    | .ok result =>
      let c := DBTransaction.commit B b.2.1 u.2
      match c.1 with
      | .error e => DBTransaction.onThrow B e c.2.1 c.2.2
      | .ok _ => (.ok result, c.2.2)

/-- The session in which `executeWithinTransaction` enters the unit of work when
`begin` does not throw: after the call of `Database::beginTransaction`. -/
def DBTransaction.unitEntry (B : Backend σ) (w : Session σ) : Session σ :=
  (w.called .beginTransaction (B.beginTransaction w.db).2).enterUnit

/-! ## A test backend and test units of work -/

/-- The state of the test backend: the visible rows and, inside a transaction,
the rows as they were at BEGIN. -/
structure TestDb where
  rows : List Nat
  atBegin : Option (List Nat)
  deriving DecidableEq, Repr

/-- Modelled from the spec: a test backend on which the all-or-nothing property is
checked; the primitives of `Database` are not among the sources.  BEGIN remembers
the rows, ROLLBACK restores the rows remembered at BEGIN, COMMIT keeps the rows. -/
def testBackend : Backend TestDb where
  beginTransaction := fun s => (.ok true, { s with atBegin := some s.rows })
  rollback := fun s => (.ok true, { rows := s.atBegin.getD s.rows, atBegin := none })
  commit := fun s => (.ok true, { s with atBegin := none })

/-- The test backend with a `beginTransaction` that throws a `std::exception`
and starts nothing. -/
def throwingBeginBackend : Backend TestDb where
  beginTransaction := fun s => (.error (.std_exception "connection lost"), s)
  rollback := testBackend.rollback
  commit := testBackend.commit

/-- The test backend with a `rollback` and a `commit` that throw a
`std::exception`. -/
def throwingEndBackend : Backend TestDb where
  beginTransaction := testBackend.beginTransaction
  rollback := fun s => (.error (.std_exception "rollback failed"), s)
  commit := fun s => (.error (.std_exception "commit failed"), s)

/-- A unit of work that writes the given rows and then returns `result`. -/
def writeRows (new : List Nat) (result : Bool) : UnitOfWork TestDb :=
  fun w => (.ok result, { w with db := { w.db with rows := w.db.rows ++ new } })

/-- A unit of work that writes the given rows and then throws
`DatabaseException`. -/
def writeRowsThenThrow (new : List Nat) : UnitOfWork TestDb :=
  fun w => (.error (.DatabaseException "Failed to save player"),
    { w with db := { w.db with rows := w.db.rows ++ new } })

/-- A session of the test backend holding the given rows, outside a transaction. -/
def testSession (rows : List Nat) : Session TestDb :=
  { db := { rows := rows, atBegin := none }, calls := [], logger := [] }

/-! ## `IOLoginData::savePlayer` (src/io/iologindata.cpp) -/

/-- A save step, such as `IOLoginDataSave::savePlayerFirst(player)`: the bodies are
not among the sources, so each is any function of the player, the backend state
and the logger that returns a `bool`.  A step cannot reach the private
transaction primitives of `Database`. -/
abbrev SaveStep (π σ : Type) := π → σ → Logger → Bool × σ × Logger

/-- The functions `savePlayerGuard` calls on a non-null player, and
`Player::getName`. -/
structure SaveSteps (π σ : Type) where
  getName : π → String
  savePlayerFirst : SaveStep π σ
  savePlayerStash : SaveStep π σ
  savePlayerSpells : SaveStep π σ
  savePlayerKills : SaveStep π σ
  savePlayerBestiarySystem : SaveStep π σ
  savePlayerItem : SaveStep π σ
  savePlayerDepotItems : SaveStep π σ
  saveRewardItems : SaveStep π σ
  savePlayerInbox : SaveStep π σ
  savePlayerPreyClass : SaveStep π σ
  savePlayerTaskHuntingClass : SaveStep π σ
  savePlayerForgeHistory : SaveStep π σ
  savePlayerBosstiary : SaveStep π σ
  saveDBPlayerSlotPointsOnLogout : SaveStep π σ
  savePlayerStorage : SaveStep π σ

/-- The fifteen `if (!step(player)) throw DatabaseException(message + name)`
statements of `savePlayerGuard`, in order: the message and the step of each. -/
def IOLoginData.stepList (S : SaveSteps π σ) : List (String × SaveStep π σ) :=
  [("[savePlayerGuard] - Failed to save player first: ", S.savePlayerFirst),
   ("[IOLoginDataSave::savePlayerFirst] - Failed to save player stash: ", S.savePlayerStash),
   ("[IOLoginDataSave::savePlayerSpells] - Failed to save player spells: ", S.savePlayerSpells),
   ("IOLoginDataSave::savePlayerKills] - Failed to save player kills: ", S.savePlayerKills),
   ("[IOLoginDataSave::savePlayerBestiarySystem] - Failed to save player bestiary system: ",
     S.savePlayerBestiarySystem),
   ("[IOLoginDataSave::savePlayerItem] - Failed to save player item: ", S.savePlayerItem),
   ("[IOLoginDataSave::savePlayerDepotItems] - Failed to save player depot items: ",
     S.savePlayerDepotItems),
   ("[IOLoginDataSave::saveRewardItems] - Failed to save player reward items: ",
     S.saveRewardItems),
   ("[IOLoginDataSave::savePlayerInbox] - Failed to save player inbox: ", S.savePlayerInbox),
   ("[IOLoginDataSave::savePlayerPreyClass] - Failed to save player prey class: ",
     S.savePlayerPreyClass),
   ("[IOLoginDataSave::savePlayerTaskHuntingClass] - Failed to save player task hunting class: ",
     S.savePlayerTaskHuntingClass),
   ("[IOLoginDataSave::savePlayerForgeHistory] - Failed to save player forge history: ",
     S.savePlayerForgeHistory),
   ("[IOLoginDataSave::savePlayerBosstiary] - Failed to save player bosstiary: ",
     S.savePlayerBosstiary),
   ("[PlayerWheel::saveDBPlayerSlotPointsOnLogout] - Failed to save player wheel info: ",
     S.saveDBPlayerSlotPointsOnLogout),
   ("[IOLoginDataSave::savePlayerStorage] - Failed to save player storage: ",
     S.savePlayerStorage)]

/-- The session after a save step ran in it. -/
def Session.afterStep (w : Session σ) (r : Bool × σ × Logger) : Session σ :=
  { w with db := r.2.1, logger := r.2.2 }

/-- The statements of `savePlayerGuard` for a non-null player: each step in turn,
a `DatabaseException` at the first one that returns false, `return true` after
the last. -/
def IOLoginData.runSteps (getName : π → String) :
    List (String × SaveStep π σ) → π → Session σ → Except Exception Bool × Session σ
  | [], _, w => (.ok true, w)
  | (message, step) :: rest, player, w =>
    if (step player w.db w.logger).1 = false then
      (.error (.DatabaseException (message ++ getName player)),
        w.afterStep (step player w.db w.logger))
    else IOLoginData.runSteps getName rest player (w.afterStep (step player w.db w.logger))

/-- The function `IOLoginData::savePlayerGuard(player)`; a null pointer is `none`. -/
def IOLoginData.savePlayerGuard (S : SaveSteps π σ) (player : Option π) : UnitOfWork σ :=
  fun w =>
    match player with
    | none => (.error (.DatabaseException "Player nullptr in function: savePlayerGuard"), w)
    | some p => IOLoginData.runSteps S.getName (IOLoginData.stepList S) p w

/-- The function `IOLoginData::savePlayer(player)`. -/
def IOLoginData.savePlayer (B : Backend σ) (S : SaveSteps π σ) (player : Option π)
    (w : Session σ) : Except Exception Bool × Session σ :=
  let r := DBTransaction.executeWithinTransaction B (IOLoginData.savePlayerGuard S player) w
  match r.1 with
  | .error e => (.error e, r.2)
  | .ok success =>
    if success = false then (.ok success, r.2.logError "[savePlayer] Error occurred saving player")
    else (.ok success, r.2)

/-- Every save step of the list returns true, each one run on the backend state
and logger its predecessors left. -/
def allStepsTrue : List (String × SaveStep π σ) → π → σ → Logger → Bool
  | [], _, _, _ => true
  | (_, step) :: rest, player, db, logger =>
    (step player db logger).1 &&
      allStepsTrue rest player (step player db logger).2.1 (step player db logger).2.2

/-- Whatever the primitives of the backend throw is a `std::exception`. -/
def Backend.throwsOnlyStd (B : Backend σ) : Prop :=
  ∀ s e, ((B.beginTransaction s).1 = .error e ∨ (B.rollback s).1 = .error e ∨
    (B.commit s).1 = .error e) → e.isStd = true

/-- A save step of the test backend: writes one row and returns `ok`. -/
def testStep (row : Nat) (ok : Bool) : SaveStep String TestDb :=
  fun _ db logger => (ok, { db with rows := db.rows ++ [row] }, logger)

/-- Save steps of the test backend: step number `k` writes the row `k`; all return
true except that `savePlayerSpells` returns `spellsOk`.  The player is its name. -/
def testSaveSteps (spellsOk : Bool) : SaveSteps String TestDb where
  getName := fun name => name
  savePlayerFirst := testStep 1 true
  savePlayerStash := testStep 2 true
  savePlayerSpells := testStep 3 spellsOk
  savePlayerKills := testStep 4 true
  savePlayerBestiarySystem := testStep 5 true
  savePlayerItem := testStep 6 true
  savePlayerDepotItems := testStep 7 true
  saveRewardItems := testStep 8 true
  savePlayerInbox := testStep 9 true
  savePlayerPreyClass := testStep 10 true
  savePlayerTaskHuntingClass := testStep 11 true
  savePlayerForgeHistory := testStep 12 true
  savePlayerBosstiary := testStep 13 true
  saveDBPlayerSlotPointsOnLogout := testStep 14 true
  savePlayerStorage := testStep 15 true

/-! ## Open transactions in a run -/

/-- The transactions open on the connection after a sequence of calls that
started with `n` open: `beginTransaction` opens one, `commit` and `rollback` close
one. -/
def openAfter (n : Nat) : List Call → Nat
  | [] => n
  | .beginTransaction :: rest => openAfter (n + 1) rest
  | .commit :: rest => openAfter (n - 1) rest
  | .rollback :: rest => openAfter (n - 1) rest
  | .toBeExecuted :: rest => openAfter n rest

/-- The greatest number of transactions open at any point of a sequence of calls
that started with `n` open. -/
def maxOpen (n : Nat) : List Call → Nat
  | [] => n
  | .beginTransaction :: rest => max n (maxOpen (n + 1) rest)
  | .commit :: rest => max n (maxOpen (n - 1) rest)
  | .rollback :: rest => max n (maxOpen (n - 1) rest)
  | .toBeExecuted :: rest => max n (maxOpen n rest)

/-- The player is non-null and every save step returns true, run in the session
in which `executeWithinTransaction` enters the unit of work. -/
def IOLoginData.saveSucceeds (B : Backend σ) (S : SaveSteps π σ) (player : Option π)
    (w : Session σ) : Prop :=
  ∃ p, player = some p ∧
    allStepsTrue (IOLoginData.stepList S) p (DBTransaction.unitEntry B w).db
      (DBTransaction.unitEntry B w).logger = true

/-! ## The queries `IOLoginData` builds from text (src/io/iologindata.cpp) -/

/-- The text `std::ostringstream` writes for a `bool` (no `boolalpha`). -/
def streamBool (b : Bool) : String := if b then "1" else "0"

/-- The query of `IOLoginData::authenticateAccountSession(sessionId, account)`.
`Database::escapeString` and `transformToSHA1` are not among the sources and are
parameters. -/
def IOLoginData.authenticateAccountSession_query (escapeString transformToSHA1 : String → String)
    (sessionId : String) : String :=
  "SELECT `account_id`, `expires` FROM `account_sessions` WHERE `id` = "
    ++ escapeString (transformToSHA1 sessionId)

/-- The query of `IOLoginData::loadPlayerByName(player, name, disable)`. -/
def IOLoginData.loadPlayerByName_query (escapeString : String → String) (name : String) :
    String :=
  "SELECT * FROM `players` WHERE `name` = " ++ escapeString name

/-- The query of `IOLoginData::getGuidByName(name)`. -/
def IOLoginData.getGuidByName_query (escapeString : String → String) (name : String) : String :=
  "SELECT `id` FROM `players` WHERE `name` = " ++ escapeString name

/-- The query of `IOLoginData::getGuidByNameEx(guid, specialVip, name)`. -/
def IOLoginData.getGuidByNameEx_query (escapeString : String → String) (name : String) :
    String :=
  "SELECT `name`, `id`, `group_id`, `account_id` FROM `players` WHERE `name` = "
    ++ escapeString name

/-- The query of `IOLoginData::formatPlayerName(name)`. -/
def IOLoginData.formatPlayerName_query (escapeString : String → String) (name : String) :
    String :=
  "SELECT `name` FROM `players` WHERE `name` = " ++ escapeString name

/-- The query of `IOLoginData::addVIPEntry(accountId, guid, description, icon,
notify)`. -/
def IOLoginData.addVIPEntry_query (escapeString : String → String) (accountId guid : Nat)
    (description : String) (icon : Nat) (notify : Bool) : String :=
  "INSERT INTO `account_viplist` (`account_id`, `player_id`, `description`, `icon`, `notify`) VALUES ("
    ++ toString accountId ++ "," ++ toString guid ++ "," ++ escapeString description ++ ","
    ++ toString icon ++ "," ++ streamBool notify ++ ")"

/-- The query of `IOLoginData::editVIPEntry(accountId, guid, description, icon,
notify)`. -/
def IOLoginData.editVIPEntry_query (escapeString : String → String) (accountId guid : Nat)
    (description : String) (icon : Nat) (notify : Bool) : String :=
  "UPDATE `account_viplist` SET `description` = " ++ escapeString description
    ++ ", `icon` = " ++ toString icon ++ ", `notify` = " ++ streamBool notify
    ++ " WHERE `account_id` = " ++ toString accountId ++ " AND `player_id` = "
    ++ toString guid

/-- The SQL text `q escapeString text` is the same function of the escaped text
for every escaping function: the text reaches the SQL only as the output of
`escapeString`. -/
def OnlyEscaped (q : (String → String) → String → String) : Prop :=
  ∃ template : String → String, ∀ (escapeString : String → String) (text : String),
    q escapeString text = template (escapeString text)

/-! ## `Database::getMaxPacketSize` -/

/-- The data members of `Database` the header reads: whether `handle` is
non-null, and `maxPacketSize`. -/
structure Database where
  connected : Bool
  maxPacketSize : Nat
  deriving DecidableEq, Repr

/-- The constructor `Database() = default` with the default member initialisers
`handle = nullptr` and `maxPacketSize = 1048576`. -/
def Database.new : Database := { connected := false, maxPacketSize := 1048576 }

/-- The member `Database::getMaxPacketSize() const`: the value returned and the
object after the call. -/
def Database.getMaxPacketSize (self : Database) : Nat × Database :=
  (self.maxPacketSize, self)

/-! ## `Database::retryQuery` and `Database::executeQuery` -/

/-- What the backend reports for one attempt to run a statement. -/
inductive QueryOutcome where
  | success
  | failure (error : Nat)
  deriving DecidableEq, Repr

/-- Modelled from the spec: `Database::retryQuery(query, retries)` is declared in
database.hpp and its body is not among the sources.  The retry policy: the
statement is issued; on an error, "if recoverable and retry budget remains,
reconnect and re-issue the exact statement; otherwise return failure".
`backend k` is what the backend reports for the attempt number `k`; the result is
the boolean returned and the statements issued, in order.  With no budget left
(first equation) every error returns failure. -/
def Database.retryQuery (backend : Nat → QueryOutcome) (query : String) :
    Nat → Nat → Bool × List String
  | 0, attempt =>
    match backend attempt with
    | .success => (true, [query])
    | .failure _ => (false, [query])
  | budget + 1, attempt =>
    match backend attempt with
    | .success => (true, [query])
    | .failure error =>
      if Database.isRecoverableError error then
        ((Database.retryQuery backend query budget (attempt + 1)).1,
          query :: (Database.retryQuery backend query budget (attempt + 1)).2)
      else (false, [query])

/-- Modelled from the spec: `Database::executeQuery(query)` is declared in
database.hpp and its body is not among the sources: the statement is run under
the retry policy with the bounded retry count `retryBudget`. -/
def Database.executeQuery (retryBudget : Nat) (backend : Nat → QueryOutcome) (query : String) :
    Bool × List String :=
  Database.retryQuery backend query retryBudget 0

/-! ## `DBInsert` -/

/-- The data members of `DBInsert`. -/
structure DBInsert where
  upsertColumns : List String
  query : String
  values : String
  length : Nat
  deriving DecidableEq, Repr

/-- Modelled from the spec: `DBInsert::upsert(columns)` "declares which columns
participate in conflict-resolution update clauses, building the trailing
`ON DUPLICATE KEY UPDATE`-equivalent fragment".  The fragment for the declared
columns, in their order; no fragment when no column is declared. -/
def DBInsert.upsertClause (columns : List String) : String :=
  if columns.isEmpty then ""
  else " ON DUPLICATE KEY UPDATE " ++
    ", ".intercalate (columns.map fun c => "`" ++ c ++ "` = VALUES(`" ++ c ++ "`)")

/-- The statement a `DBInsert` holds: the query text, the accumulated row-value
tuples and the trailing upsert fragment. -/
def DBInsert.statement (self : DBInsert) : String :=
  self.query ++ self.values ++ DBInsert.upsertClause self.upsertColumns

/-- The accumulated row-value text with one more tuple: the row in parentheses,
after a comma when a tuple is already there. -/
def DBInsert.appendRow (values row : String) : String :=
  if values.isEmpty then "(" ++ row ++ ")" else values ++ ",(" ++ row ++ ")"

/-- The object with one more tuple in its accumulated text and the running byte
length brought up to the byte length of its statement. -/
def DBInsert.withRow (self : DBInsert) (row : String) : DBInsert :=
  { self with
    values := DBInsert.appendRow self.values row
    length := (self.query ++ DBInsert.appendRow self.values row ++
      DBInsert.upsertClause self.upsertColumns).utf8ByteSize }

/-- Modelled from the spec: the constructor `DBInsert(query)` is declared in
database.hpp and its body is not among the sources: no row is accumulated, no
upsert column is declared, and the running byte length is that of the statement
so far, the query text. -/
def DBInsert.new (query : String) : DBInsert :=
  { upsertColumns := [], query := query, values := "", length := query.utf8ByteSize }

/-- Modelled from the spec: `DBInsert::upsert(columns)` is declared in database.hpp
and its body is not among the sources: the columns are recorded and the running
byte length follows the statement, which now ends in their fragment. -/
def DBInsert.upsert (columns : List String) (self : DBInsert) : DBInsert :=
  { self with
    upsertColumns := columns
    length := (self.query ++ self.values ++ DBInsert.upsertClause columns).utf8ByteSize }

/-- Modelled from the spec: `DBInsert::addRow(row)` is declared in database.hpp and
its body is not among the sources.  It "appends a pre-encoded row-value tuple;
returns false without mutating state if appending would exceed the negotiated
max packet size", and it "refuses (returns false, does not mutate) when the
resulting statement would exceed the configured packet size": the statement that
would result, query text, parentheses, commas and upsert fragment included, is
measured in bytes against `maxPacketSize`. -/
def DBInsert.addRow (db : Database) (self : DBInsert) (row : String) : Bool × DBInsert :=
  if db.maxPacketSize < (self.withRow row).statement.utf8ByteSize then (false, self)
  else (true, self.withRow row)

/-- Modelled from the spec: `DBInsert::execute()` is declared in database.hpp and
its body is not among the sources.  It "sends the accumulated multi-row
statement" and "clears accumulated state regardless of outcome"; `sent` is the
outcome of sending.  The running byte length goes back to that of the statement
with no row. -/
def DBInsert.execute (sent : Bool) (self : DBInsert) : Bool × DBInsert :=
  (sent,
    { self with
      values := ""
      length := (self.query ++ DBInsert.upsertClause self.upsertColumns).utf8ByteSize })

/-- One call on a `DBInsert`: `upsert(columns)`, `addRow(row)` with the connection
it reads the packet size from, or `execute()` with the outcome of sending. -/
inductive InsertOp where
  | upsert (columns : List String)
  | addRow (db : Database) (row : String)
  | execute (sent : Bool)
  deriving DecidableEq, Repr

/-- The object after one call. -/
def DBInsert.apply (self : DBInsert) : InsertOp → DBInsert
  | .upsert columns => self.upsert columns
  | .addRow db row => (self.addRow db row).2
  | .execute sent => (self.execute sent).2

/-- The object after a sequence of calls, in order. -/
def DBInsert.run (self : DBInsert) (ops : List InsertOp) : DBInsert :=
  ops.foldl DBInsert.apply self

/-- A row of forty bytes, the letter repeated. -/
def fortyByteRow (c : Char) : String := String.mk (List.replicate 40 c)

/-! ## Sequences of operations on one `DBTransaction` -/

/-- The three private operations of a `DBTransaction`. -/
inductive TransactionOp where
  | begin
  | commit
  | rollback
  deriving DecidableEq, Repr

/-- One operation on a `DBTransaction` in state `x.1`, in the session `x.2`. -/
def DBTransaction.apply (B : Backend σ) (op : TransactionOp)
    (x : TransactionStates_t × Session σ) : TransactionStates_t × Session σ :=
  match op with
  | .begin => (DBTransaction.begin B x.1 x.2).2
  | .commit => (DBTransaction.commit B x.1 x.2).2
  | .rollback => (DBTransaction.rollback B x.1 x.2).2

/-- A sequence of operations on one `DBTransaction`, first to last. -/
def DBTransaction.applyAll (B : Backend σ) (ops : List TransactionOp)
    (x : TransactionStates_t × Session σ) : TransactionStates_t × Session σ :=
  ops.foldl (fun y op => DBTransaction.apply B op y) x

/-- None of the primitives of the backend throws. -/
def Backend.neverThrows (B : Backend σ) : Prop :=
  ∀ s, (∃ b, (B.beginTransaction s).1 = .ok b) ∧ (∃ b, (B.rollback s).1 = .ok b) ∧
    (∃ b, (B.commit s).1 = .ok b)

/-! ## Runs in which `begin` fails -/

/-- The session in which `executeWithinTransaction` enters the unit of work,
whatever `begin` returned. -/
def DBTransaction.unitEntered (B : Backend σ) (w : Session σ) : Session σ :=
  (DBTransaction.begin B .STATE_NO_START w).2.2.enterUnit

/-- The test backend with a `beginTransaction` that returns false. -/
def falseBeginBackend : Backend TestDb where
  beginTransaction := fun s => (.ok false, s)
  rollback := testBackend.rollback
  commit := testBackend.commit

/-! ## `Actions` (src/lua/creature/actions.hpp, actions.cpp) -/

/-- The call `g_logger().warn(msg)`. -/
def Logger.warn (logs : Logger) (msg : String) : Logger :=
  logs.log "warn" msg

/-- The call `g_logger().debug(msg)`. -/
def Logger.debug (logs : Logger) (msg : String) : Logger :=
  logs.log "debug" msg

/-- Modelled from the spec: `Position` is declared in a header that is not among
the sources; it holds the coordinates `x`, `y` and the floor `z`. -/
structure Position where
  x : Nat
  y : Nat
  z : Nat
  deriving DecidableEq, Repr

/-- Modelled from the spec: `Position::toString()`, not among the sources; only
the text of log lines depends on it. -/
def Position.toString (p : Position) : String :=
  "( " ++ ToString.toString p.x ++ ", " ++ ToString.toString p.y ++ ", "
    ++ ToString.toString p.z ++ " )"

/-- Modelled from the spec: `Position::areInRange<deltax, deltay>(p1, p2)`, not
among the sources: the positions differ by at most `deltax` in x and by at most
`deltay` in y. -/
def Position.areInRange (deltax deltay : Nat) (p1 p2 : Position) : Bool :=
  decide (((p1.x : Int) - (p2.x : Int)).natAbs ≤ deltax) &&
    decide (((p1.y : Int) - (p2.y : Int)).natAbs ≤ deltay)

/-- The data members of `Action` the registry reads, and the name of the script
that loads it (`getScriptInterface()->getLoadingScriptName()`). -/
structure Action where
  scriptName : String
  allowFarUse : Bool
  checkFloor : Bool
  checkLineOfSight : Bool
  itemIds : List Nat
  uniqueIds : List Nat
  actionIds : List Nat
  positions : List Position
  deriving DecidableEq, Repr

/-- A script action with the given ids and positions and the default attributes. -/
def Action.new (scriptName : String) (itemIds uniqueIds actionIds : List Nat)
    (positions : List Position) : Action :=
  { scriptName := scriptName, allowFarUse := false, checkFloor := true,
    checkLineOfSight := true, itemIds := itemIds, uniqueIds := uniqueIds,
    actionIds := actionIds, positions := positions }

/-- The four maps of `Actions`; a `std::map` is its lookup function and a
`std::shared_ptr<Action>` is the action it points to. -/
structure Actions where
  useItemMap : Nat → Option Action
  uniqueItemMap : Nat → Option Action
  actionItemMap : Nat → Option Action
  actionPositionMap : Position → Option Action

/-- The registry after `Actions::clear()`, and as constructed. -/
def Actions.empty : Actions :=
  { useItemMap := fun _ => none, uniqueItemMap := fun _ => none,
    actionItemMap := fun _ => none, actionPositionMap := fun _ => none }

/-- The call `map.try_emplace(key, action)`: inserts unless the key is present. -/
def tryEmplace [DecidableEq κ] (map : κ → Option Action) (key : κ) (action : Action) :
    κ → Option Action :=
  fun k => if k = key then (match map key with | some old => some old | none => some action)
    else map k

/-- The member `Actions::hasItemId(itemId)`. -/
def Actions.hasItemId (self : Actions) (itemId : Nat) : Bool := (self.useItemMap itemId).isSome

/-- The member `Actions::setItemId(itemId, action)`. -/
def Actions.setItemId (self : Actions) (itemId : Nat) (action : Action) : Actions :=
  { self with useItemMap := tryEmplace self.useItemMap itemId action }

/-- The member `Actions::hasUniqueId(uniqueId)`. -/
def Actions.hasUniqueId (self : Actions) (uniqueId : Nat) : Bool :=
  (self.uniqueItemMap uniqueId).isSome

/-- The member `Actions::setUniqueId(uniqueId, action)`. -/
def Actions.setUniqueId (self : Actions) (uniqueId : Nat) (action : Action) : Actions :=
  { self with uniqueItemMap := tryEmplace self.uniqueItemMap uniqueId action }

/-- The member `Actions::hasActionId(actionId)`. -/
def Actions.hasActionId (self : Actions) (actionId : Nat) : Bool :=
  (self.actionItemMap actionId).isSome

/-- The member `Actions::setActionId(actionId, action)`. -/
def Actions.setActionId (self : Actions) (actionId : Nat) (action : Action) : Actions :=
  { self with actionItemMap := tryEmplace self.actionItemMap actionId action }

/-- The member `Actions::hasPosition(position)`. -/
def Actions.hasPosition (self : Actions) (position : Position) : Bool :=
  (self.actionPositionMap position).isSome

/-- The member `Actions::setPosition(position, action)`. -/
def Actions.setPosition (self : Actions) (position : Position) (action : Action) : Actions :=
  { self with actionPositionMap := tryEmplace self.actionPositionMap position action }

/-- The text of the range `from ..., to ...` in the duplicate warnings:
`vector.at(0)` and `vector.at(size - 1)`. -/
def rangeText (ids : List Nat) : String × String :=
  (ToString.toString (ids.headD 0), ToString.toString (ids.getLastD 0))

/-- The loop of `registerLuaItemEvent` over the ids still to visit, with
`tmpVector`, the registry and the logger. -/
def Actions.registerItemIds (action : Action) :
    List Nat → List Nat → Actions → Logger → List Nat × Actions × Logger
  | [], tmpVector, self, logger => (tmpVector, self, logger)
  | itemId :: rest, tmpVector, self, logger =>
    if self.hasItemId itemId then
      Actions.registerItemIds action rest tmpVector self
        (logger.warn ("[registerLuaItemEvent] - Duplicate registered item with id: "
          ++ ToString.toString itemId ++ " in range from id: " ++ (rangeText action.itemIds).1
          ++ ", to id: " ++ (rangeText action.itemIds).2 ++ ", for script: "
          ++ action.scriptName))
    else
      Actions.registerItemIds action rest (tmpVector ++ [itemId])
        (self.setItemId itemId action) logger

/-- The member `Actions::registerLuaItemEvent(action)`. -/
def Actions.registerLuaItemEvent (self : Actions) (action : Action) (logger : Logger) :
    Bool × Actions × Logger :=
  if action.itemIds.isEmpty then (false, self, logger)
  else
    let r := Actions.registerItemIds action action.itemIds [] self logger
    (!r.1.isEmpty, r.2.1, r.2.2)

/-- The loop of `registerLuaUniqueEvent`. -/
def Actions.registerUniqueIds (action : Action) :
    List Nat → List Nat → Actions → Logger → List Nat × Actions × Logger
  | [], tmpVector, self, logger => (tmpVector, self, logger)
  | uniqueId :: rest, tmpVector, self, logger =>
    if !self.hasUniqueId uniqueId then
      Actions.registerUniqueIds action rest (tmpVector ++ [uniqueId])
        (self.setUniqueId uniqueId action) logger
    else
      Actions.registerUniqueIds action rest tmpVector self
        (logger.warn ("[registerLuaUniqueEvent] duplicate registered item with uid: "
          ++ ToString.toString uniqueId ++ " in range from uid: "
          ++ (rangeText action.uniqueIds).1 ++ ", to uid: " ++ (rangeText action.uniqueIds).2
          ++ ", for script: " ++ action.scriptName))

/-- The member `Actions::registerLuaUniqueEvent(action)`. -/
def Actions.registerLuaUniqueEvent (self : Actions) (action : Action) (logger : Logger) :
    Bool × Actions × Logger :=
  if action.uniqueIds.isEmpty then (false, self, logger)
  else
    let r := Actions.registerUniqueIds action action.uniqueIds [] self logger
    (!r.1.isEmpty, r.2.1, r.2.2)

/-- The loop of `registerLuaActionEvent`. -/
def Actions.registerActionIds (action : Action) :
    List Nat → List Nat → Actions → Logger → List Nat × Actions × Logger
  | [], tmpVector, self, logger => (tmpVector, self, logger)
  | actionId :: rest, tmpVector, self, logger =>
    if !self.hasActionId actionId then
      Actions.registerActionIds action rest (tmpVector ++ [actionId])
        (self.setActionId actionId action) logger
    else
      Actions.registerActionIds action rest tmpVector self
        (logger.warn ("[registerLuaActionEvent] duplicate registered item with aid: "
          ++ ToString.toString actionId ++ " in range from aid: "
          ++ (rangeText action.actionIds).1 ++ ", to aid: " ++ (rangeText action.actionIds).2
          ++ ", for script: " ++ action.scriptName))

/-- The member `Actions::registerLuaActionEvent(action)`. -/
def Actions.registerLuaActionEvent (self : Actions) (action : Action) (logger : Logger) :
    Bool × Actions × Logger :=
  if action.actionIds.isEmpty then (false, self, logger)
  else
    let r := Actions.registerActionIds action action.actionIds [] self logger
    (!r.1.isEmpty, r.2.1, r.2.2)

/-- The loop of `registerLuaPositionEvent`. -/
def Actions.registerPositions (action : Action) :
    List Position → List Position → Actions → Logger → List Position × Actions × Logger
  | [], tmpVector, self, logger => (tmpVector, self, logger)
  | position :: rest, tmpVector, self, logger =>
    if !self.hasPosition position then
      Actions.registerPositions action rest (tmpVector ++ [position])
        (self.setPosition position action) logger
    else
      Actions.registerPositions action rest tmpVector self
        (logger.warn ("[registerLuaPositionEvent] duplicate registered script with range position: "
          ++ position.toString ++ ", for script: " ++ action.scriptName))

/-- The member `Actions::registerLuaPositionEvent(action)`. -/
def Actions.registerLuaPositionEvent (self : Actions) (action : Action) (logger : Logger) :
    Bool × Actions × Logger :=
  if action.positions.isEmpty then (false, self, logger)
  else
    let r := Actions.registerPositions action action.positions [] self logger
    (!r.1.isEmpty, r.2.1, r.2.2)

/-- The member `Actions::registerLuaEvent(action)`: the four calls are the
operands of `||`, so a call is made only when those before it returned false. -/
def Actions.registerLuaEvent (self : Actions) (action : Action) (logger : Logger) :
    Bool × Actions × Logger :=
  let r1 := self.registerLuaItemEvent action logger
  if r1.1 then (true, r1.2)
  else
    let r2 := r1.2.1.registerLuaUniqueEvent action r1.2.2
    if r2.1 then (true, r2.2)
    else
      let r3 := r2.2.1.registerLuaActionEvent action r2.2.2
      if r3.1 then (true, r3.2)
      else
        let r4 := r3.2.1.registerLuaPositionEvent action r3.2.2
        if r4.1 then (true, r4.2)
        else
          (false, r4.2.1,
            r4.2.2.warn
              ("[registerLuaEvent] missing id/aid/uid/position for one script event, for script: "
                ++ action.scriptName))

/-- Modelled from the spec: the values of `ReturnValue` the functions here
return; the enumeration is declared in a header that is not among the sources. -/
inductive ReturnValue where
  | RETURNVALUE_NOERROR
  | RETURNVALUE_FIRSTGOUPSTAIRS
  | RETURNVALUE_FIRSTGODOWNSTAIRS
  | RETURNVALUE_TOOFARAWAY
  deriving DecidableEq, Repr

/-- The member `Actions::canUse(player, pos)`; `playerPos` is
`player->getPosition()`. -/
def Actions.canUse (playerPos pos : Position) : ReturnValue :=
  if pos.x ≠ 0xFFFF then
    if playerPos.z ≠ pos.z then
      if playerPos.z > pos.z then .RETURNVALUE_FIRSTGOUPSTAIRS
      else .RETURNVALUE_FIRSTGODOWNSTAIRS
    else if !Position.areInRange 1 1 playerPos pos then .RETURNVALUE_TOOFARAWAY
    else .RETURNVALUE_NOERROR
  else .RETURNVALUE_NOERROR

/-- What `getAction` reads of an `Item`: its type id, the attributes UNIQUEID and
ACTIONID when present, its position, whether it has a tile, the player holding
it (by name) and whether that player is its top parent. -/
structure Item where
  id : Nat
  uniqueId : Option Nat
  actionId : Option Nat
  position : Position
  tile : Bool
  holdingPlayer : Option String
  topParentIsHolder : Bool
  deriving DecidableEq, Repr

/-- The member `Actions::getAction(item)`; `getRuneSpell` is
`g_spells().getRuneSpell`, not among the sources. -/
def Actions.getAction (self : Actions) (getRuneSpell : Nat → Option Action) (item : Item)
    (logger : Logger) : Option Action × Logger :=
  match item.uniqueId.bind self.uniqueItemMap with
  | some action => (some action, logger)
  | none =>
    match item.actionId.bind self.actionItemMap with
    | some action => (some action, logger)
    | none =>
      match self.useItemMap item.id with
      | some action => (some action, logger)
      | none =>
        match self.actionPositionMap item.position, item.tile with
        | some action, true =>
          match item.holdingPlayer with
          | some name =>
            if item.topParentIsHolder then
              (none,
                logger.debug
                  ("[Actions::getAction] - The position only is valid for use item in the map, player name "
                    ++ name))
            else (some action, logger)
          | none => (some action, logger)
        | _, _ => (getRuneSpell item.id, logger)

/-- An item lying on the map at the position, with no attribute. -/
def Item.onMap (id : Nat) (position : Position) : Item :=
  { id := id, uniqueId := none, actionId := none, position := position, tile := true,
    holdingPlayer := none, topParentIsHolder := false }

/-! ## `House` and `Houses::payHouses` (src/map/house/house.cpp) -/

/-- Modelled from the spec: `AccessHouseLevel_t` is declared in house.hpp, which is
not among the sources; the levels in increasing order. -/
inductive AccessHouseLevel_t where
  | HOUSE_NOT_INVITED
  | HOUSE_GUEST
  | HOUSE_SUBOWNER
  | HOUSE_OWNER
  deriving DecidableEq, Repr

/-- The integer value of an access level, by which `<` compares levels. -/
def AccessHouseLevel_t.toNat : AccessHouseLevel_t → Nat
  | .HOUSE_NOT_INVITED => 0
  | .HOUSE_GUEST => 1
  | .HOUSE_SUBOWNER => 2
  | .HOUSE_OWNER => 3

/-- What the house code reads and writes of a `Player`: name, GUID, account, the
flag `CanEditHouses`, the house of the `HouseTile` the player stands on (`none`
when the tile is not a house tile), the position, the bank balance and the texts
of the letters in the inbox. -/
structure Player where
  name : String
  guid : Nat
  account : Nat
  canEditHouses : Bool
  houseTile : Option Nat
  position : Position
  bankBalance : Nat
  inbox : List String
  deriving DecidableEq, Repr

/-- The data members of `House` the functions here use; the two access lists are
their `isInList` predicates. -/
structure House where
  id : Nat
  houseName : String
  owner : Nat
  ownerName : String
  ownerAccountId : Nat
  isLoaded : Bool
  rent : Nat
  paidUntil : Int
  rentWarnings : Nat
  townId : Nat
  posEntry : Position
  subOwnerList : Player → Bool
  guestList : Player → Bool

/-- The configuration values the house code reads: `HOUSE_OWNED_BY_ACCOUNT` and
`HOUSE_RENT_PERIOD` in lower case. -/
structure HouseConfig where
  houseOwnedByAccount : Bool
  houseRentPeriod : String

/-- The member `House::getHouseAccessLevel(player)`; a null pointer is `none`. -/
def House.getHouseAccessLevel (config : HouseConfig) (self : House) (player : Option Player) :
    AccessHouseLevel_t :=
  match player with
  | none => .HOUSE_OWNER
  | some p =>
    if config.houseOwnedByAccount && self.ownerAccountId == p.account then .HOUSE_OWNER
    else if p.canEditHouses then .HOUSE_OWNER
    else if p.guid == self.owner then .HOUSE_OWNER
    else if self.subOwnerList p then .HOUSE_SUBOWNER
    else if self.guestList p then .HOUSE_GUEST
    else .HOUSE_NOT_INVITED

/-- The magic effects `kickPlayer` shows. -/
inductive MagicEffect where
  | CONST_ME_POFF
  | CONST_ME_TELEPORT
  deriving DecidableEq, Repr

/-- The calls `kickPlayer` makes on the game. -/
inductive GameCall where
  | internalTeleport (guid : Nat) (newPos : Position)
  | addMagicEffect (pos : Position) (effect : MagicEffect)
  deriving DecidableEq, Repr

/-- The member `House::kickPlayer(player, target)`: the result and the calls made
on the game; `internalTeleport` is the outcome of `g_game().internalTeleport`. -/
def House.kickPlayer (config : HouseConfig) (internalTeleport : Player → Position → ReturnValue)
    (self : House) (player target : Option Player) : Bool × List GameCall :=
  match target with
  | none => (false, [])
  | some t =>
    if t.houseTile ≠ some self.id then (false, [])
    else if (self.getHouseAccessLevel config player).toNat
          < (self.getHouseAccessLevel config (some t)).toNat || t.canEditHouses then
      (false, [])
    else if internalTeleport t self.posEntry = .RETURNVALUE_NOERROR then
      (true, [.internalTeleport t.guid self.posEntry,
              .addMagicEffect t.position .CONST_ME_POFF,
              .addMagicEffect self.posEntry .CONST_ME_TELEPORT])
    else (true, [.internalTeleport t.guid self.posEntry])

theorem isdigit_digitChar (d : Nat) (h : d < 10) : isdigit (Nat.digitChar d) = true := by
  interval_cases d <;> decide

theorem digitChar_value (d : Nat) (h : d < 10) : (Nat.digitChar d).toNat - 48 = d := by
  interval_cases d <;> decide

theorem isspace_of_isdigit (c : Char) (h : isdigit c = true) : isspace c = false := by
  cases hs : isspace c with
  | false => rfl
  | true =>
    simp only [isspace, List.contains_eq_any_beq, List.any_cons, List.any_nil, Bool.or_false,
      Bool.or_eq_true, beq_iff_eq] at hs
    rcases hs with hs | hs | hs | hs | hs | hs <;> subst hs <;> revert h <;> decide

theorem splitSign_of_isdigit (c : Char) (rest : List Char) (h : isdigit c = true) :
    splitSign (c :: rest) = (false, c :: rest) := by
  unfold splitSign
  split
  · next heq =>
      simp only [List.cons.injEq] at heq
      obtain ⟨hc, -⟩ := heq
      subst hc
      exact absurd h (by decide)
  · next heq =>
      simp only [List.cons.injEq] at heq
      obtain ⟨hc, -⟩ := heq
      subst hc
      exact absurd h (by decide)
  · rfl

theorem digitsValue_append (xs ys : List Char) (acc : Nat) :
    digitsValue (xs ++ ys) acc = digitsValue ys (digitsValue xs acc) := by
  simp [digitsValue, List.foldl_append]

/-- With enough fuel `Nat.toDigitsCore 10` puts a digit run of value `n` in front of
what it was given. -/
theorem toDigitsCore_run : ∀ (fuel n : Nat) (tail : List Char), n < fuel →
    ∃ run, IsDigitRun run n ∧ Nat.toDigitsCore 10 fuel n tail = run ++ tail := by
  intro fuel
  induction fuel with
  | zero => intro n tail h; omega
  | succ k ih =>
    intro n tail hn
    have hmod : n % 10 < 10 := Nat.mod_lt _ (by omega)
    have hlast : IsDigitRun [Nat.digitChar (n % 10)] (n % 10) := by
      refine ⟨by simp, ?_, ?_⟩
      · intro c hc
        rw [List.mem_singleton] at hc
        subst hc
        exact isdigit_digitChar _ hmod
      · simp [digitsValue, digitChar_value _ hmod]
    by_cases hq : n / 10 = 0
    · have hsmall : n % 10 = n := by omega
      refine ⟨[Nat.digitChar (n % 10)], ?_, ?_⟩
      · rw [hsmall] at hlast ⊢
        exact hlast
      · simp [Nat.toDigitsCore, hq]
    · obtain ⟨front, ⟨-, hdig, hval⟩, hfront⟩ :=
        ih (n / 10) (Nat.digitChar (n % 10) :: tail) (by omega)
      refine ⟨front ++ [Nat.digitChar (n % 10)], ⟨by simp, ?_, ?_⟩, ?_⟩
      · intro c hc
        rw [List.mem_append] at hc
        rcases hc with hc | hc
        · exact hdig c hc
        · exact hlast.2.1 c hc
      · rw [digitsValue_append, hval]
        simp only [digitsValue, List.foldl_cons, List.foldl_nil]
        rw [digitChar_value _ hmod]
        omega
      · simp [Nat.toDigitsCore, hq, hfront]

/-- The decimal digits of a natural number are a digit run of its value. -/
theorem toDigits_run (n : Nat) : IsDigitRun (Nat.toDigits 10 n) n := by
  obtain ⟨run, hrun, heq⟩ := toDigitsCore_run (n + 1) n [] (by omega)
  have h : Nat.toDigits 10 n = run := by simp [Nat.toDigits, heq]
  rw [h]
  exact hrun

/-- Scanning a non-empty run of digits reads its value, with no sign. -/
theorem scanNumber_digits (ds : List Char) (hne : ds ≠ [])
    (hdig : ∀ c ∈ ds, isdigit c = true) : scanNumber ds = some (false, digitsValue ds 0) := by
  cases ds with
  | nil => exact absurd rfl hne
  | cons c rest =>
    have hc : isdigit c = true := hdig c (List.mem_cons_self _ _)
    have hdrop : (c :: rest).dropWhile isspace = c :: rest := by
      simp [List.dropWhile_cons, isspace_of_isdigit c hc]
    have htake : (c :: rest).takeWhile isdigit = c :: rest :=
      List.takeWhile_eq_self_iff.mpr hdig
    simp [scanNumber, hdrop, splitSign_of_isdigit c rest hc, htake]

/-- Scanning a minus sign followed by a non-empty run of digits. -/
theorem scanNumber_minus_digits (ds : List Char) (hne : ds ≠ [])
    (hdig : ∀ c ∈ ds, isdigit c = true) :
    scanNumber ('-' :: ds) = some (true, digitsValue ds 0) := by
  have hdrop : ('-' :: ds).dropWhile isspace = '-' :: ds := by
    rw [List.dropWhile_cons]
    have : isspace '-' = false := by decide
    simp [this]
  have htake : ds.takeWhile isdigit = ds := List.takeWhile_eq_self_iff.mpr hdig
  have hemp : ds.isEmpty = false := by
    cases ds with
    | nil => exact absurd rfl hne
    | cons _ _ => rfl
  simp [scanNumber, hdrop, splitSign, htake, hemp]

theorem decimalText_ofNat (n : Nat) : decimalText (n : Int) = Nat.toDigits 10 n := by
  show (toString (Int.ofNat n)).data = _
  rfl

theorem decimalText_negSucc (n : Nat) :
    decimalText (Int.negSucc n) = '-' :: Nat.toDigits 10 (n + 1) := by
  show (toString (Int.negSucc n)).data = _
  rfl

/-- Scanning the decimal text of an integer reads its sign and magnitude. -/
theorem scanNumber_decimalText (v : Int) :
    scanNumber (decimalText v) = some (decide (v < 0), v.natAbs) := by
  cases v with
  | ofNat n =>
    rw [show Int.ofNat n = (n : Int) from rfl, decimalText_ofNat]
    obtain ⟨hne, hdig, hval⟩ := toDigits_run n
    rw [scanNumber_digits _ hne hdig, hval]
    simp
  | negSucc n =>
    rw [decimalText_negSucc]
    obtain ⟨hne, hdig, hval⟩ := toDigits_run (n + 1)
    rw [scanNumber_minus_digits _ hne hdig, hval]
    simp [Int.negSucc_lt_zero]

theorem stoSigned_decimalText (fn : String) (bits : Nat) (v : Int)
    (hlo : -(2 : Int) ^ (bits - 1) ≤ v) (hhi : v ≤ (2 : Int) ^ (bits - 1) - 1) :
    stoSigned fn bits (decimalText v) = .ok v := by
  have hv : (if decide (v < 0) = true then -(v.natAbs : Int) else (v.natAbs : Int)) = v := by
    by_cases h : v < 0
    · simp only [h, decide_True, if_true]; omega
    · simp only [h, decide_False, Bool.false_eq_true, if_false]; omega
  simp only [stoSigned, scanNumber_decimalText, hv]
  rw [if_neg (by omega)]

theorem stoUnsigned_decimalText (fn : String) (bits : Nat) (v : Int)
    (hlo : 0 ≤ v) (hhi : v < (2 : Int) ^ bits) :
    stoUnsigned fn bits (decimalText v) = .ok v := by
  have hneg : decide (v < 0) = false := by simp; omega
  have hm : ¬ (2 ^ bits ≤ v.natAbs) := by
    intro h
    have h2 : ((2 ^ bits : Nat) : Int) ≤ (v.natAbs : Int) := by exact_mod_cast h
    rw [Nat.cast_pow] at h2
    have h3 : ((2 : Nat) : Int) = 2 := rfl
    rw [h3] at h2
    omega
  simp only [stoUnsigned, scanNumber_decimalText, hneg, if_neg hm, Bool.false_eq_true, if_false]
  congr 1
  omega

theorem staticCast_of_representable (T : NumType) (hT : T ≠ .bool) (v : Int)
    (h : T.representable v) : staticCast T v = v := by
  cases T <;>
    simp only [NumType.representable, NumType.minValue, NumType.maxValue, NumType.isSigned,
      NumType.bits, if_true, Bool.false_eq_true, if_false] at h <;>
    simp only [staticCast, NumType.isSigned, NumType.bits, if_true, Bool.false_eq_true,
      if_false] <;>
    first
      | exact absurd rfl hT
      | (norm_num at h ⊢; omega)

theorem staticCast_representable (T : NumType) (x : Int) : T.representable (staticCast T x) := by
  cases T <;>
    simp only [NumType.representable, NumType.minValue, NumType.maxValue, staticCast,
      NumType.isSigned, NumType.bits, if_true, Bool.false_eq_true, if_false] <;>
    first
      | (split <;> norm_num)
      | (norm_num; omega)

theorem zero_representable (T : NumType) : T.representable T.zero := by
  cases T <;>
    simp only [NumType.representable, NumType.minValue, NumType.maxValue, NumType.zero,
      NumType.isSigned, NumType.bits, if_true, Bool.false_eq_true, if_false] <;>
    norm_num

/-- The conversions throw nothing but `invalid_argument` and `out_of_range`. -/
theorem stoSigned_cases (fn : String) (bits : Nat) (s : List Char) :
    (∃ x, stoSigned fn bits s = .ok x) ∨ stoSigned fn bits s = .error (.invalid_argument fn) ∨
      stoSigned fn bits s = .error (.out_of_range fn) := by
  unfold stoSigned
  cases scanNumber s with
  | none => exact Or.inr (Or.inl rfl)
  | some p =>
    obtain ⟨neg, m⟩ := p
    dsimp only
    generalize (if neg = true then -(m : Int) else (m : Int)) = v
    by_cases h : v < -(2 : Int) ^ (bits - 1) ∨ (2 : Int) ^ (bits - 1) - 1 < v
    · exact Or.inr (Or.inr (if_pos h))
    · exact Or.inl ⟨v, if_neg h⟩

theorem stoUnsigned_cases (fn : String) (bits : Nat) (s : List Char) :
    (∃ x, stoUnsigned fn bits s = .ok x) ∨ stoUnsigned fn bits s = .error (.invalid_argument fn) ∨
      stoUnsigned fn bits s = .error (.out_of_range fn) := by
  unfold stoUnsigned
  cases scanNumber s with
  | none => exact Or.inr (Or.inl rfl)
  | some p =>
    obtain ⟨neg, m⟩ := p
    dsimp only
    by_cases h : 2 ^ bits ≤ m
    · exact Or.inr (Or.inr (if_pos h))
    · exact Or.inl ⟨_, if_neg h⟩

theorem map_cases {f : Int → Int} {r : Except Exception Int} {fn : String}
    (h : (∃ x, r = .ok x) ∨ r = .error (.invalid_argument fn) ∨ r = .error (.out_of_range fn)) :
    (∃ x, r.map f = .ok (f x)) ∨ r.map f = .error (.invalid_argument fn) ∨
      r.map f = .error (.out_of_range fn) := by
  rcases h with ⟨x, hx⟩ | hx | hx
  · exact Or.inl ⟨x, by rw [hx]; rfl⟩
  · exact Or.inr (Or.inl (by rw [hx]; rfl))
  · exact Or.inr (Or.inr (by rw [hx]; rfl))

/-- The `try` block of `getNumber<T>` yields a value cast to `T` or throws one of
the two exceptions the function catches. -/
theorem convertCell_cases (dm : DataModel) (T : NumType) (cell : List Char) :
    (∃ x, convertCell dm T cell = .ok (staticCast T x)) ∨
      (∃ w, convertCell dm T cell = .error (.invalid_argument w)) ∨
      (∃ w, convertCell dm T cell = .error (.out_of_range w)) := by
  have key : ∀ (r : Except Exception Int) (fn : String),
      ((∃ x, r = .ok x) ∨ r = .error (.invalid_argument fn) ∨ r = .error (.out_of_range fn)) →
      (∃ x, r.map (staticCast T) = .ok (staticCast T x)) ∨
        (∃ w, r.map (staticCast T) = .error (.invalid_argument w)) ∨
        (∃ w, r.map (staticCast T) = .error (.out_of_range w)) := by
    intro r fn h
    rcases map_cases (f := staticCast T) h with h | h | h
    · exact Or.inl h
    · exact Or.inr (Or.inl ⟨fn, h⟩)
    · exact Or.inr (Or.inr ⟨fn, h⟩)
  cases T <;> simp only [convertCell]
  · exact key _ _ (stoSigned_cases _ _ _)
  · exact key _ _ (stoSigned_cases _ _ _)
  · exact key _ _ (stoSigned_cases _ _ _)
  · exact key _ _ (stoSigned_cases _ _ _)
  · exact key _ _ (stoUnsigned_cases _ _ _)
  · exact key _ _ (stoUnsigned_cases _ _ _)
  · exact key _ _ (stoUnsigned_cases _ _ _)
  · exact key _ _ (stoUnsigned_cases _ _ _)
  · exact key _ _ (stoSigned_cases _ _ _)

/-- The decimal text of a value representable in an integer type `T` converts to it. -/
theorem convertCell_decimalText (dm : DataModel) (T : NumType) (hT : T ≠ .bool) (v : Int)
    (hv : T.representable v) : convertCell dm T (decimalText v) = .ok v := by
  have hc := staticCast_of_representable T hT v hv
  have hb : dm.longBits = 64 ∨ dm.longBits = 32 := by cases dm <;> simp [DataModel.longBits]
  cases T <;>
    simp only [NumType.representable, NumType.minValue, NumType.maxValue, NumType.isSigned,
      NumType.bits, if_true, Bool.false_eq_true, if_false] at hv <;>
    simp only [convertCell, stoi, stol, stoll, stoul, stoull]
  · rw [stoSigned_decimalText _ _ _ (by norm_num at hv ⊢; omega) (by norm_num at hv ⊢; omega)]
    simp only [Except.map, hc]
  · rw [stoSigned_decimalText _ _ _ (by norm_num at hv ⊢; omega) (by norm_num at hv ⊢; omega)]
    simp only [Except.map, hc]
  · rw [stoSigned_decimalText _ _ _
      (by rcases hb with hb | hb <;> rw [hb] <;> norm_num at hv ⊢ <;> omega)
      (by rcases hb with hb | hb <;> rw [hb] <;> norm_num at hv ⊢ <;> omega)]
    simp only [Except.map, hc]
  · rw [stoSigned_decimalText _ _ _ (by norm_num at hv ⊢; omega) (by norm_num at hv ⊢; omega)]
    simp only [Except.map, hc]
  · rw [stoUnsigned_decimalText _ _ _ hv.1
      (by rcases hb with hb | hb <;> rw [hb] <;> norm_num at hv ⊢ <;> omega)]
    simp only [Except.map, hc]
  · rw [stoUnsigned_decimalText _ _ _ hv.1
      (by rcases hb with hb | hb <;> rw [hb] <;> norm_num at hv ⊢ <;> omega)]
    simp only [Except.map, hc]
  · rw [stoUnsigned_decimalText _ _ _ hv.1
      (by rcases hb with hb | hb <;> rw [hb] <;> norm_num at hv ⊢ <;> omega)]
    simp only [Except.map, hc]
  · rw [stoUnsigned_decimalText _ _ _ hv.1 (by norm_num at hv ⊢; omega)]
    simp only [Except.map, hc]
  · exact absurd rfl hT

theorem scanNumber_nonNumeric (s : List Char) (h : nonNumeric s) : scanNumber s = none := by
  unfold nonNumeric at h
  unfold scanNumber
  dsimp only
  cases hb : (splitSign (s.dropWhile isspace)).2 with
  | nil => simp
  | cons c rest =>
    rw [hb] at h
    have hc : isdigit c = false := h c (by simp)
    simp [List.takeWhile_cons, hc]

theorem convertCell_nonNumeric (dm : DataModel) (T : NumType) (cell : List Char)
    (h : nonNumeric cell) : ∃ w, convertCell dm T cell = .error (.invalid_argument w) := by
  have hs := scanNumber_nonNumeric cell h
  cases T <;>
    simp only [convertCell, stoi, stol, stoll, stoul, stoull, stoSigned, stoUnsigned, hs] <;>
    exact ⟨_, rfl⟩

/-! ## The claims about `getNumber<T>` and `isRecoverableError` -/

/-- C1: for every integer type `T` (int8/16/32/64 and uint8/16/32/64), on either
data model, and every value `v` representable in `T`, `getNumber<T>` on an
existing column whose cell holds the decimal text of `v` returns `v` (and logs
nothing). -/
theorem getNumber_roundtrip (dm : DataModel) (T : NumType) (res : DBResult) (s : String)
    (idx : Nat) (logger : Logger) (v : Int) (hT : T ≠ .bool)
    (hcol : res.listNames.lookup s = some idx) (hcell : res.row idx = some (decimalText v))
    (hv : T.representable v) :
    res.getNumber dm T s logger = (.ok v, logger) := by
  simp only [DBResult.getNumber, hcol, hcell, convertCell_decimalText dm T hT v hv]

/-- C1, at the least value of `int64_t` on LP64 and at the greatest of `uint32_t`
on LLP64; the decimal text of `-128` is the sign followed by its digits. -/
theorem getNumber_roundtrip_witness :
    (DBResult.single "id" (some (decimalText (-9223372036854775808)))).getNumber
        .LP64 .int64 "id" [] = (.ok (-9223372036854775808), []) ∧
    (DBResult.single "id" (some (decimalText 4294967295))).getNumber
        .LLP64 .uint32 "id" [] = (.ok 4294967295, []) ∧
    decimalText (-128) = ['-', '1', '2', '8'] :=
  ⟨getNumber_roundtrip .LP64 .int64 _ "id" 0 [] (-9223372036854775808) (by decide) rfl rfl
      (by decide),
   getNumber_roundtrip .LLP64 .uint32 _ "id" 0 [] 4294967295 (by decide) rfl rfl (by decide),
   rfl⟩

/-- C5: for every supported `T`, `getNumber<T>` returns the zero value `T()` when
the column name is not in the result set, and when the column exists but the
cell of the current row is null. -/
theorem getNumber_missing_or_null (dm : DataModel) (T : NumType) (res : DBResult) (s : String)
    (logger : Logger)
    (h : res.listNames.lookup s = none ∨
      ∃ idx, res.listNames.lookup s = some idx ∧ res.row idx = none) :
    (res.getNumber dm T s logger).1 = .ok T.zero := by
  rcases h with h | ⟨idx, hcol, hcell⟩
  · simp only [DBResult.getNumber, h]
  · simp only [DBResult.getNumber, hcol, hcell]

/-- C5, on an unknown column and on a null cell. -/
theorem getNumber_missing_or_null_witness :
    ((DBResult.single "id" (some ['7'])).getNumber .LP64 .uint16 "name" []).1 = .ok 0 ∧
    ((DBResult.single "id" none).getNumber .LP64 .bool "id" []).1 = .ok 0 :=
  ⟨getNumber_missing_or_null .LP64 .uint16 (DBResult.single "id" (some ['7'])) "name" []
      (Or.inl (by decide)),
   getNumber_missing_or_null .LP64 .bool (DBResult.single "id" none) "id" []
      (Or.inr ⟨0, by decide, rfl⟩)⟩

/-- C6: the text `200` lies outside the range of `int8_t`, and `getNumber<int8_t>`
returns `-56` for it, not zero, logging nothing: `std::stoi` checks the range of
`int` only and the `static_cast` wraps.  In the same way `getNumber<uint8_t>` of
`-1` is `255` and `getNumber<uint16_t>` of `70000` is `4464`. -/
theorem getNumber_narrow_out_of_range :
    (DBResult.single "c" (some ['2', '0', '0'])).getNumber .LP64 .int8 "c" []
        = (.ok (-56), []) ∧
    ¬ NumType.int8.representable 200 ∧
    (DBResult.single "c" (some ['-', '1'])).getNumber .LP64 .uint8 "c" []
        = (.ok 255, []) ∧
    (DBResult.single "c" (some ['7', '0', '0', '0', '0'])).getNumber .LP64 .uint16 "c" []
        = (.ok 4464, []) := by
  refine ⟨by rfl, by decide, by rfl, by rfl⟩

/-- C7: for every supported `T`, a cell whose text holds no number to read
(such as `abc`, or the empty text) makes `getNumber<T>` return the zero value of
`T`. -/
theorem getNumber_nonNumeric (dm : DataModel) (T : NumType) (res : DBResult) (s : String)
    (idx : Nat) (logger : Logger) (cell : List Char)
    (hcol : res.listNames.lookup s = some idx) (hcell : res.row idx = some cell)
    (hnon : nonNumeric cell) :
    (res.getNumber dm T s logger).1 = .ok T.zero := by
  obtain ⟨w, hw⟩ := convertCell_nonNumeric dm T cell hnon
  simp only [DBResult.getNumber, hcol, hcell, hw]

/-- C7, on the text `abc` and on the empty text. -/
theorem getNumber_nonNumeric_witness :
    ((DBResult.single "c" (some ['a', 'b', 'c'])).getNumber .LP64 .int32 "c" []).1 = .ok 0 ∧
    ((DBResult.single "c" (some [])).getNumber .LLP64 .uint64 "c" []).1 = .ok 0 :=
  ⟨getNumber_nonNumeric .LP64 .int32 _ "c" 0 [] ['a', 'b', 'c'] rfl rfl
      (by intro c hc; simp [splitSign, isspace] at hc; subst hc; decide),
   getNumber_nonNumeric .LLP64 .uint64 _ "c" 0 [] [] rfl rfl
      (by intro c hc; simp [splitSign] at hc)⟩

/-- C8: `getNumber<T>` is total: for every supported `T`, every result set, every
column name and every cell content it returns a value of `T`; no exception
leaves it. -/
theorem getNumber_total (dm : DataModel) (T : NumType) (res : DBResult) (s : String)
    (logger : Logger) :
    ∃ v, (res.getNumber dm T s logger).1 = .ok v ∧ T.representable v := by
  unfold DBResult.getNumber
  cases res.listNames.lookup s with
  | none => exact ⟨T.zero, rfl, zero_representable T⟩
  | some idx =>
    dsimp only
    cases res.row idx with
    | none => exact ⟨T.zero, rfl, zero_representable T⟩
    | some cell =>
      dsimp only
      rcases convertCell_cases dm T cell with ⟨x, hx⟩ | ⟨w, hw⟩ | ⟨w, hw⟩
      · rw [hx]; exact ⟨staticCast T x, rfl, staticCast_representable T x⟩
      · rw [hw]; exact ⟨T.zero, rfl, zero_representable T⟩
      · rw [hw]; exact ⟨T.zero, rfl, zero_representable T⟩

/-- C9: for every error code `e`, `isRecoverableError(e)` holds exactly when `e` is
one of the five codes 2013 (server lost), 2006 (server gone), 2003 (connection
to host), 1053 (server shutdown) and 2002 (connection error). -/
theorem isRecoverableError_iff (e : Nat) :
    Database.isRecoverableError e = true ↔
      (e = 2013 ∨ e = 2006 ∨ e = 2003 ∨ e = 1053 ∨ e = 2002) := by
  simp [Database.isRecoverableError, CR_SERVER_LOST, CR_SERVER_GONE_ERROR, CR_CONN_HOST_ERROR,
    CR_CONNECTION_ERROR, or_assoc]

/-! ## Facts about the members of `DBTransaction` -/

theorem begin_of_ok (B : Backend σ) (w : Session σ) (bb : Bool)
    (h : (B.beginTransaction w.db).1 = .ok bb) :
    DBTransaction.begin B .STATE_NO_START w =
      (.ok bb, .STATE_START, w.called .beginTransaction (B.beginTransaction w.db).2) := by
  simp [DBTransaction.begin, h]

theorem begin_of_std (B : Backend σ) (w : Session σ) (e : Exception)
    (h : (B.beginTransaction w.db).1 = .error e) (he : e.isStd = true) :
    (DBTransaction.begin B .STATE_NO_START w).1 = .ok false ∧
      (DBTransaction.begin B .STATE_NO_START w).2.1 = .STATE_NO_START := by
  simp [DBTransaction.begin, h, he]

/-- A started transaction rolls back with one call of `Database::rollback`, and
`rollback()` returns normally unless that call throws something that is not a
`std::exception`. -/
theorem rollback_started (B : Backend σ) (w : Session σ) :
    (DBTransaction.rollback B .STATE_START w).2.2.db = (B.rollback w.db).2 ∧
    (DBTransaction.rollback B .STATE_START w).2.2.calls = w.calls ++ [.rollback] ∧
    ((∀ e, (B.rollback w.db).1 = .error e → e.isStd = true) →
      (DBTransaction.rollback B .STATE_START w).1 = .ok ()) ∧
    (∀ e, (DBTransaction.rollback B .STATE_START w).1 = .error e → e.isStd = false) := by
  unfold DBTransaction.rollback
  cases h : (B.rollback w.db).1 with
  | ok b => simp [Session.called, h]
  | error e =>
    cases he : e.isStd <;> simp [Session.called, Session.logError, h, he]

/-- A started transaction commits with one call of `Database::commit`, and
`commit()` returns normally unless that call throws something that is not a
`std::exception`. -/
theorem commit_started (B : Backend σ) (w : Session σ) :
    (DBTransaction.commit B .STATE_START w).2.2.db = (B.commit w.db).2 ∧
    (DBTransaction.commit B .STATE_START w).2.2.calls = w.calls ++ [.commit] ∧
    ((∀ e, (B.commit w.db).1 = .error e → e.isStd = true) →
      (DBTransaction.commit B .STATE_START w).1 = .ok ()) ∧
    (∀ e, (DBTransaction.commit B .STATE_START w).1 = .error e → e.isStd = false) := by
  unfold DBTransaction.commit
  cases h : (B.commit w.db).1 with
  | ok b => simp [Session.called, h]
  | error e =>
    cases he : e.isStd <;> simp [Session.called, Session.logError, h, he]

theorem unitEntry_calls (B : Backend σ) (w : Session σ) :
    (DBTransaction.unitEntry B w).calls = w.calls ++ [.beginTransaction, .toBeExecuted] := by
  simp [DBTransaction.unitEntry, Session.called, Session.enterUnit]

/-- The run of `executeWithinTransaction` once `begin` has not thrown. -/
theorem executeWithinTransaction_of_begin_ok (B : Backend σ) (u : UnitOfWork σ) (w : Session σ)
    (bb : Bool) (hbegin : (B.beginTransaction w.db).1 = .ok bb) :
    DBTransaction.executeWithinTransaction B u w =
      match (u (DBTransaction.unitEntry B w)).1 with
      | .error e => DBTransaction.onThrow B e .STATE_START (u (DBTransaction.unitEntry B w)).2
      | .ok result =>
        match (DBTransaction.commit B .STATE_START (u (DBTransaction.unitEntry B w)).2).1 with
        | .error e => DBTransaction.onThrow B e
            (DBTransaction.commit B .STATE_START (u (DBTransaction.unitEntry B w)).2).2.1
            (DBTransaction.commit B .STATE_START (u (DBTransaction.unitEntry B w)).2).2.2
        | .ok _ => (.ok result,
            (DBTransaction.commit B .STATE_START (u (DBTransaction.unitEntry B w)).2).2.2) := by
  simp only [DBTransaction.executeWithinTransaction, begin_of_ok B w bb hbegin,
    DBTransaction.unitEntry]

/-- The handler entered from a started transaction with a `std::exception`: one
ROLLBACK, then `false`, provided the ROLLBACK throws nothing but a
`std::exception`. -/
theorem onThrow_started (B : Backend σ) (e : Exception) (w : Session σ)
    (he : e.isStd = true) (hrb : ∀ e2, (B.rollback w.db).1 = .error e2 → e2.isStd = true) :
    (DBTransaction.onThrow B e .STATE_START w).1 = .ok false ∧
    (DBTransaction.onThrow B e .STATE_START w).2.db = (B.rollback w.db).2 ∧
    (DBTransaction.onThrow B e .STATE_START w).2.calls = w.calls ++ [.rollback] := by
  obtain ⟨hdb, hcalls, hok, -⟩ := rollback_started B w
  have h1 := hok hrb
  simp only [DBTransaction.onThrow, he, if_true, h1, Session.logError]
  exact ⟨trivial, hdb, hcalls⟩

/-! ## The claims about `executeWithinTransaction` -/

/-- C2 (amended): when the backend `beginTransaction` does not throw, a unit of
work that throws a `std::exception` after any of its writes makes
`executeWithinTransaction` call BEGIN before the unit, ROLLBACK after the throw,
no COMMIT, and return false; the backend is left in the state its ROLLBACK
produces from the state the unit left, so over a backend whose rollback restores
the state at BEGIN none of the writes of the unit remain visible. -/
theorem executeWithinTransaction_rollback_on_throw (B : Backend σ) (u : UnitOfWork σ)
    (w : Session σ) (bb : Bool) (e : Exception)
    (hbegin : (B.beginTransaction w.db).1 = .ok bb)
    (hunit : (u (DBTransaction.unitEntry B w)).1 = .error e) (he : e.isStd = true)
    (hrb : ∀ e2, (B.rollback (u (DBTransaction.unitEntry B w)).2.db).1 = .error e2 →
      e2.isStd = true) :
    (DBTransaction.executeWithinTransaction B u w).1 = .ok false ∧
    (DBTransaction.unitEntry B w).calls = w.calls ++ [.beginTransaction, .toBeExecuted] ∧
    (DBTransaction.executeWithinTransaction B u w).2.calls =
      (u (DBTransaction.unitEntry B w)).2.calls ++ [.rollback] ∧
    ((u (DBTransaction.unitEntry B w)).2.calls = (DBTransaction.unitEntry B w).calls →
      (DBTransaction.executeWithinTransaction B u w).2.calls =
        w.calls ++ [.beginTransaction, .toBeExecuted, .rollback]) ∧
    (DBTransaction.executeWithinTransaction B u w).2.db =
      (B.rollback (u (DBTransaction.unitEntry B w)).2.db).2 ∧
    (∀ (D : Type) (visible : σ → D),
      visible (B.rollback (u (DBTransaction.unitEntry B w)).2.db).2 = visible w.db →
      visible (DBTransaction.executeWithinTransaction B u w).2.db = visible w.db) := by
  obtain ⟨h1, h2, h3⟩ := onThrow_started B e (u (DBTransaction.unitEntry B w)).2 he hrb
  have hrun : DBTransaction.executeWithinTransaction B u w =
      DBTransaction.onThrow B e .STATE_START (u (DBTransaction.unitEntry B w)).2 := by
    rw [executeWithinTransaction_of_begin_ok B u w bb hbegin, hunit]
  rw [hrun]
  refine ⟨h1, unitEntry_calls B w, h3, ?_, h2, ?_⟩
  · intro hplain
    rw [h3, hplain, unitEntry_calls]
    simp
  · intro D visible hvis
    rw [h2, hvis]

/-- C2 (amended), on the test backend: two rows are written before the throw and
neither is visible afterwards. -/
theorem executeWithinTransaction_rollback_on_throw_witness :
    (DBTransaction.executeWithinTransaction testBackend (writeRowsThenThrow [3, 4])
      (testSession [1, 2])).1 = .ok false ∧
    (DBTransaction.executeWithinTransaction testBackend (writeRowsThenThrow [3, 4])
      (testSession [1, 2])).2.calls = [.beginTransaction, .toBeExecuted, .rollback] ∧
    (DBTransaction.executeWithinTransaction testBackend (writeRowsThenThrow [3, 4])
      (testSession [1, 2])).2.db.rows = [1, 2] := by
  have h := executeWithinTransaction_rollback_on_throw testBackend (writeRowsThenThrow [3, 4])
    (testSession [1, 2]) true (.DatabaseException "Failed to save player") rfl rfl rfl
    (by intro e2 h2; cases h2)
  exact ⟨h.1, h.2.2.2.1 rfl, h.2.2.2.2.2 (List Nat) (fun d => d.rows) rfl⟩

/-- C2 as stated fails when the backend `beginTransaction` throws: `begin` puts the
state back to `STATE_NO_START`, the unit of work still runs, writes two rows and
throws, and `rollback` then returns without a ROLLBACK; the call returns false
with both rows visible. -/
theorem executeWithinTransaction_throwing_begin_no_rollback :
    (writeRowsThenThrow [3, 4]
      (DBTransaction.unitEntry throwingBeginBackend (testSession [1, 2]))).1
        = .error (.DatabaseException "Failed to save player") ∧
    (DBTransaction.executeWithinTransaction throwingBeginBackend (writeRowsThenThrow [3, 4])
      (testSession [1, 2])).1 = .ok false ∧
    (DBTransaction.executeWithinTransaction throwingBeginBackend (writeRowsThenThrow [3, 4])
      (testSession [1, 2])).2.calls = [.beginTransaction, .toBeExecuted] ∧
    Call.rollback ∉ (DBTransaction.executeWithinTransaction throwingBeginBackend
      (writeRowsThenThrow [3, 4]) (testSession [1, 2])).2.calls ∧
    (DBTransaction.executeWithinTransaction throwingBeginBackend (writeRowsThenThrow [3, 4])
      (testSession [1, 2])).2.db.rows = [1, 2, 3, 4] := by
  refine ⟨rfl, rfl, rfl, ?_, rfl⟩
  decide

/-- C3 (amended): in every run of `executeWithinTransaction` that returns false
and in which the backend `beginTransaction` did not throw, either the unit of
work threw a `std::exception`, and then ROLLBACK is called after the unit and
COMMIT is not; or the unit returned false without throwing, and then COMMIT is
called after the unit and ROLLBACK is not. -/
theorem executeWithinTransaction_false_runs (B : Backend σ) (u : UnitOfWork σ)
    (w : Session σ) (bb : Bool) (hbegin : (B.beginTransaction w.db).1 = .ok bb)
    (hfalse : (DBTransaction.executeWithinTransaction B u w).1 = .ok false) :
    (∃ e, (u (DBTransaction.unitEntry B w)).1 = .error e ∧ e.isStd = true ∧
      (DBTransaction.executeWithinTransaction B u w).2.calls =
        (u (DBTransaction.unitEntry B w)).2.calls ++ [.rollback]) ∨
    ((u (DBTransaction.unitEntry B w)).1 = .ok false ∧
      (DBTransaction.executeWithinTransaction B u w).2.calls =
        (u (DBTransaction.unitEntry B w)).2.calls ++ [.commit]) := by
  rw [executeWithinTransaction_of_begin_ok B u w bb hbegin] at hfalse ⊢
  cases hu : (u (DBTransaction.unitEntry B w)).1 with
  | error e =>
    rw [hu] at hfalse
    simp only at hfalse ⊢
    left
    refine ⟨e, rfl, ?_⟩
    cases he : e.isStd with
    | false => simp [DBTransaction.onThrow, he] at hfalse
    | true =>
      refine ⟨rfl, ?_⟩
      obtain ⟨-, hcalls, -, hnon⟩ := rollback_started B (u (DBTransaction.unitEntry B w)).2
      cases hr : (DBTransaction.rollback B .STATE_START (u (DBTransaction.unitEntry B w)).2).1 with
      | error e2 => simp [DBTransaction.onThrow, he, hr] at hfalse
      | ok x => simp [DBTransaction.onThrow, he, hr, Session.logError, hcalls]
  | ok b =>
    rw [hu] at hfalse
    simp only at hfalse ⊢
    right
    obtain ⟨-, hcalls, -, hnon⟩ := commit_started B (u (DBTransaction.unitEntry B w)).2
    cases hc : (DBTransaction.commit B .STATE_START (u (DBTransaction.unitEntry B w)).2).1 with
    | error e2 =>
      have h2 := hnon e2 hc
      simp [hc, DBTransaction.onThrow, h2] at hfalse
    | ok x =>
      rw [hc] at hfalse
      simp only [Except.ok.injEq] at hfalse
      simp [hfalse, hcalls]

/-- C3 (amended), on the test backend: a throwing unit is rolled back, a unit
returning false is committed. -/
theorem executeWithinTransaction_false_runs_witness :
    ((∃ e, (writeRowsThenThrow [3, 4]
        (DBTransaction.unitEntry testBackend (testSession [1, 2]))).1 = .error e ∧
        e.isStd = true ∧
        (DBTransaction.executeWithinTransaction testBackend (writeRowsThenThrow [3, 4])
          (testSession [1, 2])).2.calls =
          (writeRowsThenThrow [3, 4]
            (DBTransaction.unitEntry testBackend (testSession [1, 2]))).2.calls ++ [.rollback]) ∨
      ((writeRowsThenThrow [3, 4]
        (DBTransaction.unitEntry testBackend (testSession [1, 2]))).1 = .ok false ∧
        (DBTransaction.executeWithinTransaction testBackend (writeRowsThenThrow [3, 4])
          (testSession [1, 2])).2.calls =
          (writeRowsThenThrow [3, 4]
            (DBTransaction.unitEntry testBackend (testSession [1, 2]))).2.calls ++ [.commit])) :=
  executeWithinTransaction_false_runs testBackend (writeRowsThenThrow [3, 4])
    (testSession [1, 2]) true rfl rfl

/-- C3 as stated fails: a unit of work that reports failure by returning false is
committed, not rolled back (and with a throwing `beginTransaction` a throwing
unit is not rolled back either). -/
theorem executeWithinTransaction_false_result_commits :
    (DBTransaction.executeWithinTransaction testBackend (writeRows [3, 4] false)
      (testSession [1, 2])).1 = .ok false ∧
    (DBTransaction.executeWithinTransaction testBackend (writeRows [3, 4] false)
      (testSession [1, 2])).2.calls = [.beginTransaction, .toBeExecuted, .commit] ∧
    Call.rollback ∉ (DBTransaction.executeWithinTransaction testBackend
      (writeRows [3, 4] false) (testSession [1, 2])).2.calls ∧
    Call.commit ∈ (DBTransaction.executeWithinTransaction testBackend
      (writeRows [3, 4] false) (testSession [1, 2])).2.calls ∧
    (DBTransaction.executeWithinTransaction testBackend (writeRows [3, 4] false)
      (testSession [1, 2])).2.db.rows = [1, 2, 3, 4] ∧
    (DBTransaction.executeWithinTransaction throwingBeginBackend (writeRowsThenThrow [5])
      (testSession [])).1 = .ok false ∧
    Call.rollback ∉ (DBTransaction.executeWithinTransaction throwingBeginBackend
      (writeRowsThenThrow [5]) (testSession [])).2.calls := by
  refine ⟨rfl, rfl, ?_, ?_, rfl, rfl, ?_⟩ <;> decide

/-- C4: when the backend `beginTransaction` and `commit` do not throw, a unit of
work that completes without throwing and returns `b` makes
`executeWithinTransaction` call BEGIN, run the unit once in the session BEGIN
left, call COMMIT on the session the unit left, call no ROLLBACK, and return
exactly `b`. -/
theorem executeWithinTransaction_commits (B : Backend σ) (u : UnitOfWork σ)
    (w : Session σ) (bb bc b : Bool)
    (hbegin : (B.beginTransaction w.db).1 = .ok bb)
    (hunit : (u (DBTransaction.unitEntry B w)).1 = .ok b)
    (hcommit : (B.commit (u (DBTransaction.unitEntry B w)).2.db).1 = .ok bc) :
    DBTransaction.executeWithinTransaction B u w =
      (.ok b, (u (DBTransaction.unitEntry B w)).2.called .commit
        (B.commit (u (DBTransaction.unitEntry B w)).2.db).2) ∧
    (DBTransaction.unitEntry B w).calls = w.calls ++ [.beginTransaction, .toBeExecuted] ∧
    (DBTransaction.executeWithinTransaction B u w).2.calls =
      (u (DBTransaction.unitEntry B w)).2.calls ++ [.commit] ∧
    ((u (DBTransaction.unitEntry B w)).2.calls = (DBTransaction.unitEntry B w).calls →
      (DBTransaction.executeWithinTransaction B u w).2.calls =
        w.calls ++ [.beginTransaction, .toBeExecuted, .commit]) := by
  have hrun : DBTransaction.executeWithinTransaction B u w =
      (.ok b, (u (DBTransaction.unitEntry B w)).2.called .commit
        (B.commit (u (DBTransaction.unitEntry B w)).2.db).2) := by
    rw [executeWithinTransaction_of_begin_ok B u w bb hbegin, hunit]
    simp [DBTransaction.commit, hcommit]
  rw [hrun]
  refine ⟨rfl, unitEntry_calls B w, rfl, ?_⟩
  intro hplain
  simp [Session.called, hplain, unitEntry_calls]

/-- C4, on the test backend, for a unit returning true and a unit returning
false. -/
theorem executeWithinTransaction_commits_witness :
    DBTransaction.executeWithinTransaction testBackend (writeRows [3, 4] true)
        (testSession [1, 2]) =
      (.ok true, { db := { rows := [1, 2, 3, 4], atBegin := none },
                   calls := [.beginTransaction, .toBeExecuted, .commit], logger := [] }) ∧
    (DBTransaction.executeWithinTransaction testBackend (writeRows [] false)
        (testSession [])).1 = .ok false :=
  ⟨(executeWithinTransaction_commits testBackend (writeRows [3, 4] true) (testSession [1, 2])
      true true true rfl rfl rfl).1,
   congrArg Prod.fst (executeWithinTransaction_commits testBackend (writeRows [] false)
      (testSession []) true true false rfl rfl rfl).1⟩

/-- C10: when whatever `beginTransaction`, `commit`, `rollback` or the unit of work
throw is a `std::exception`, `executeWithinTransaction` returns a boolean: no
exception reaches its caller. -/
theorem executeWithinTransaction_no_throw (B : Backend σ) (u : UnitOfWork σ) (w : Session σ)
    (hb : ∀ s e, (B.beginTransaction s).1 = .error e → e.isStd = true)
    (hr : ∀ s e, (B.rollback s).1 = .error e → e.isStd = true)
    (hc : ∀ s e, (B.commit s).1 = .error e → e.isStd = true)
    (hu : ∀ s e, (u s).1 = .error e → e.isStd = true) :
    ∃ b, (DBTransaction.executeWithinTransaction B u w).1 = .ok b := by
  have hroll : ∀ (st : TransactionStates_t) (x : Session σ),
      (DBTransaction.rollback B st x).1 = .ok () := by
    intro st x
    cases st with
    | STATE_START => exact (rollback_started B x).2.2.1 (hr x.db)
    | STATE_NO_START => simp [DBTransaction.rollback]
    | STATE_COMMIT => simp [DBTransaction.rollback]
  have hcomm : ∀ (st : TransactionStates_t) (x : Session σ),
      (DBTransaction.commit B st x).1 = .ok () := by
    intro st x
    cases st with
    | STATE_START => exact (commit_started B x).2.2.1 (hc x.db)
    | STATE_NO_START => simp [DBTransaction.commit]
    | STATE_COMMIT => simp [DBTransaction.commit]
  have hthrow : ∀ (e : Exception) (st : TransactionStates_t) (x : Session σ),
      e.isStd = true → (DBTransaction.onThrow B e st x).1 = .ok false := by
    intro e st x he
    simp [DBTransaction.onThrow, he, hroll st x]
  have hbeg : ∃ bb, (DBTransaction.begin B .STATE_NO_START w).1 = .ok bb := by
    cases h : (B.beginTransaction w.db).1 with
    | ok bb => exact ⟨bb, by rw [begin_of_ok B w bb h]⟩
    | error e => exact ⟨false, (begin_of_std B w e h (hb w.db e h)).1⟩
  obtain ⟨bb, hbb⟩ := hbeg
  simp only [DBTransaction.executeWithinTransaction, hbb]
  cases hu1 : (u (DBTransaction.begin B .STATE_NO_START w).2.2.enterUnit).1 with
  | error e => exact ⟨false, hthrow e _ _ (hu _ e hu1)⟩
  | ok result =>
    simp only [hcomm]
    exact ⟨result, rfl⟩

/-- C10, on a backend whose `beginTransaction` throws and on one whose `rollback`
and `commit` throw, each with a throwing unit of work. -/
theorem executeWithinTransaction_no_throw_witness :
    (∃ b, (DBTransaction.executeWithinTransaction throwingBeginBackend
      (writeRowsThenThrow [3]) (testSession [1, 2])).1 = .ok b) ∧
    (∃ b, (DBTransaction.executeWithinTransaction throwingEndBackend
      (writeRowsThenThrow [3]) (testSession [1, 2])).1 = .ok b) :=
  ⟨executeWithinTransaction_no_throw throwingBeginBackend (writeRowsThenThrow [3])
      (testSession [1, 2])
      (by intro s e h; cases h; rfl) (by intro s e h; cases h) (by intro s e h; cases h)
      (by intro s e h; cases h; rfl),
   executeWithinTransaction_no_throw throwingEndBackend (writeRowsThenThrow [3])
      (testSession [1, 2])
      (by intro s e h; cases h) (by intro s e h; cases h; rfl) (by intro s e h; cases h; rfl)
      (by intro s e h; cases h; rfl)⟩

/-! ## Facts about `savePlayerGuard` and about runs of `executeWithinTransaction` -/

theorem runSteps_calls (getName : π → String) (steps : List (String × SaveStep π σ)) (p : π) :
    ∀ w : Session σ, (IOLoginData.runSteps getName steps p w).2.calls = w.calls := by
  induction steps with
  | nil => intro w; rfl
  | cons head rest ih =>
    intro w
    obtain ⟨message, step⟩ := head
    unfold IOLoginData.runSteps
    split
    · rfl
    · rw [ih]; rfl

/-- The steps return true, or throw a `DatabaseException`, as `allStepsTrue` says. -/
theorem runSteps_result (getName : π → String) (steps : List (String × SaveStep π σ)) (p : π) :
    ∀ w : Session σ,
      (allStepsTrue steps p w.db w.logger = true →
        (IOLoginData.runSteps getName steps p w).1 = .ok true) ∧
      (allStepsTrue steps p w.db w.logger = false →
        ∃ m, (IOLoginData.runSteps getName steps p w).1 = .error (.DatabaseException m)) := by
  induction steps with
  | nil => intro w; simp [allStepsTrue, IOLoginData.runSteps]
  | cons head rest ih =>
    intro w
    obtain ⟨message, step⟩ := head
    unfold IOLoginData.runSteps
    cases hs : (step p w.db w.logger).1 with
    | false => simp [allStepsTrue, hs]
    | true =>
      have h := ih (w.afterStep (step p w.db w.logger))
      simpa [allStepsTrue, hs, Session.afterStep] using h

/-- The unit of work of `savePlayer` makes no transaction calls, returns true when
the save succeeds and throws a `DatabaseException` otherwise. -/
theorem savePlayerGuard_cases (S : SaveSteps π σ) (player : Option π) (w : Session σ) :
    (IOLoginData.savePlayerGuard S player w).2.calls = w.calls ∧
    ((∃ p, player = some p ∧ allStepsTrue (IOLoginData.stepList S) p w.db w.logger = true) →
      (IOLoginData.savePlayerGuard S player w).1 = .ok true) ∧
    ((¬ ∃ p, player = some p ∧ allStepsTrue (IOLoginData.stepList S) p w.db w.logger = true) →
      ∃ m, (IOLoginData.savePlayerGuard S player w).1 = .error (.DatabaseException m)) := by
  cases player with
  | none =>
    refine ⟨rfl, ?_, ?_⟩
    · rintro ⟨p, hp, -⟩; cases hp
    · intro _; exact ⟨_, rfl⟩
  | some p =>
    obtain ⟨hok, hfail⟩ := runSteps_result S.getName (IOLoginData.stepList S) p w
    refine ⟨runSteps_calls _ _ _ _, ?_, ?_⟩
    · rintro ⟨q, hq, hall⟩
      cases hq
      exact hok hall
    · intro hno
      apply hfail
      cases hall : allStepsTrue (IOLoginData.stepList S) p w.db w.logger with
      | false => rfl
      | true => exact absurd ⟨p, rfl, hall⟩ hno

/-- A run whose `beginTransaction` does not throw and whose unit of work returns
`b`: the result is `b` unless `commit` throws something that is not a
`std::exception`. -/
theorem executeWithinTransaction_of_unit_ok (B : Backend σ) (u : UnitOfWork σ) (w : Session σ)
    (bb b : Bool) (hbegin : (B.beginTransaction w.db).1 = .ok bb)
    (hunit : (u (DBTransaction.unitEntry B w)).1 = .ok b)
    (hc : ∀ e, (B.commit (u (DBTransaction.unitEntry B w)).2.db).1 = .error e → e.isStd = true) :
    (DBTransaction.executeWithinTransaction B u w).1 = .ok b ∧
    (DBTransaction.executeWithinTransaction B u w).2.calls =
      (u (DBTransaction.unitEntry B w)).2.calls ++ [.commit] := by
  obtain ⟨-, hcalls, hok, -⟩ := commit_started B (u (DBTransaction.unitEntry B w)).2
  rw [executeWithinTransaction_of_begin_ok B u w bb hbegin, hunit]
  simp only [hok hc]
  exact ⟨trivial, hcalls⟩

/-- A run whose `beginTransaction` does not throw and whose unit of work throws a
`std::exception`: false after one ROLLBACK, unless the ROLLBACK throws something
that is not a `std::exception`. -/
theorem executeWithinTransaction_of_unit_throw (B : Backend σ) (u : UnitOfWork σ)
    (w : Session σ) (bb : Bool) (e : Exception)
    (hbegin : (B.beginTransaction w.db).1 = .ok bb)
    (hunit : (u (DBTransaction.unitEntry B w)).1 = .error e) (he : e.isStd = true)
    (hr : ∀ e2, (B.rollback (u (DBTransaction.unitEntry B w)).2.db).1 = .error e2 →
      e2.isStd = true) :
    (DBTransaction.executeWithinTransaction B u w).1 = .ok false ∧
    (DBTransaction.executeWithinTransaction B u w).2.calls =
      (u (DBTransaction.unitEntry B w)).2.calls ++ [.rollback] := by
  obtain ⟨h1, -, h3⟩ := onThrow_started B e (u (DBTransaction.unitEntry B w)).2 he hr
  rw [executeWithinTransaction_of_begin_ok B u w bb hbegin, hunit]
  exact ⟨h1, h3⟩

theorem savePlayer_fst (B : Backend σ) (S : SaveSteps π σ) (player : Option π) (w : Session σ)
    (b : Bool)
    (h : (DBTransaction.executeWithinTransaction B (IOLoginData.savePlayerGuard S player) w).1
      = .ok b) :
    (IOLoginData.savePlayer B S player w).1 = .ok b ∧
    (IOLoginData.savePlayer B S player w).2.calls =
      (DBTransaction.executeWithinTransaction B (IOLoginData.savePlayerGuard S player) w).2.calls
    := by
  unfold IOLoginData.savePlayer
  simp only [h]
  cases b <;> simp [Session.logError]

/-! ## The claims about `savePlayer` and about nested transactions -/

/-- C11 (amended): when the backend primitives throw nothing but `std::exception`
and `beginTransaction` does not throw, `savePlayer` returns true if and only if the
player is non-null and every save step returns true; otherwise the
`DatabaseException` of `savePlayerGuard` is caught by `executeWithinTransaction`,
ROLLBACK is called after the unit, COMMIT is not, and `savePlayer` returns false;
no exception reaches the caller in either case. -/
theorem savePlayer_true_iff (B : Backend σ) (S : SaveSteps π σ) (player : Option π)
    (w : Session σ) (bb : Bool) (hstd : B.throwsOnlyStd)
    (hbegin : (B.beginTransaction w.db).1 = .ok bb) :
    ((IOLoginData.savePlayer B S player w).1 = .ok true ↔
      IOLoginData.saveSucceeds B S player w) ∧
    (¬ IOLoginData.saveSucceeds B S player w →
      (IOLoginData.savePlayer B S player w).1 = .ok false ∧
      (IOLoginData.savePlayer B S player w).2.calls =
        w.calls ++ [.beginTransaction, .toBeExecuted, .rollback]) := by
  obtain ⟨hcalls, hok, hfail⟩ :=
    savePlayerGuard_cases S player (DBTransaction.unitEntry B w)
  have hfalse : ¬ IOLoginData.saveSucceeds B S player w →
      (IOLoginData.savePlayer B S player w).1 = .ok false ∧
      (IOLoginData.savePlayer B S player w).2.calls =
        w.calls ++ [.beginTransaction, .toBeExecuted, .rollback] := by
    intro hno
    obtain ⟨m, hm⟩ := hfail hno
    obtain ⟨h1, h2⟩ := executeWithinTransaction_of_unit_throw B
      (IOLoginData.savePlayerGuard S player) w bb _ hbegin hm rfl
      (fun e2 he2 => hstd _ e2 (Or.inr (Or.inl he2)))
    obtain ⟨h3, h4⟩ := savePlayer_fst B S player w false h1
    refine ⟨h3, ?_⟩
    rw [h4, h2, hcalls, unitEntry_calls]
    simp
  refine ⟨⟨?_, ?_⟩, hfalse⟩
  · intro htrue
    by_contra hno
    rw [(hfalse hno).1] at htrue
    cases htrue
  · intro hyes
    obtain ⟨h1, -⟩ := executeWithinTransaction_of_unit_ok B
      (IOLoginData.savePlayerGuard S player) w bb true hbegin (hok hyes)
      (fun e he => hstd _ e (Or.inr (Or.inr he)))
    exact (savePlayer_fst B S player w true h1).1

/-- C11 (amended), on the test backend: a player all of whose steps succeed is
saved and committed; a player whose third step fails, and a null player, are
rolled back with none of the rows written. -/
theorem savePlayer_true_iff_witness :
    (IOLoginData.savePlayer testBackend (testSaveSteps true) (some "Ana")
      (testSession [0])).1 = .ok true ∧
    ((IOLoginData.savePlayer testBackend (testSaveSteps false) (some "Ana")
      (testSession [0])).1 = .ok false ∧
     (IOLoginData.savePlayer testBackend (testSaveSteps false) (some "Ana")
      (testSession [0])).2.calls = [.beginTransaction, .toBeExecuted, .rollback]) ∧
    ((IOLoginData.savePlayer testBackend (testSaveSteps true) none
      (testSession [0])).1 = .ok false ∧
     (IOLoginData.savePlayer testBackend (testSaveSteps true) none
      (testSession [0])).2.calls = [.beginTransaction, .toBeExecuted, .rollback]) ∧
    (IOLoginData.savePlayer testBackend (testSaveSteps false) (some "Ana")
      (testSession [0])).2.db.rows = [0] := by
  have hstd : testBackend.throwsOnlyStd := by
    intro s e h
    rcases h with h | h | h <;> cases h
  refine ⟨?_, ?_, ?_, rfl⟩
  · exact (savePlayer_true_iff testBackend (testSaveSteps true) (some "Ana") (testSession [0])
      true hstd rfl).1.2 ⟨"Ana", rfl, rfl⟩
  · exact (savePlayer_true_iff testBackend (testSaveSteps false) (some "Ana") (testSession [0])
      true hstd rfl).2 (by rintro ⟨p, hp, hall⟩; cases hp; cases hall)
  · exact (savePlayer_true_iff testBackend (testSaveSteps true) none (testSession [0])
      true hstd rfl).2 (by rintro ⟨p, hp, -⟩; cases hp)

/-- C11 as stated fails when the backend `beginTransaction` throws: for a null
player, and for a player whose third save step fails, `savePlayer` returns false
but no ROLLBACK is called, and the rows the first three steps wrote stay. -/
theorem savePlayer_throwing_begin_no_rollback :
    (IOLoginData.savePlayer throwingBeginBackend (testSaveSteps true) none
      (testSession [0])).1 = .ok false ∧
    Call.rollback ∉ (IOLoginData.savePlayer throwingBeginBackend (testSaveSteps true) none
      (testSession [0])).2.calls ∧
    (IOLoginData.savePlayer throwingBeginBackend (testSaveSteps false) (some "Ana")
      (testSession [0])).1 = .ok false ∧
    (IOLoginData.savePlayer throwingBeginBackend (testSaveSteps false) (some "Ana")
      (testSession [0])).2.calls = [.beginTransaction, .toBeExecuted] ∧
    (IOLoginData.savePlayer throwingBeginBackend (testSaveSteps false) (some "Ana")
      (testSession [0])).2.db.rows = [0, 1, 2, 3] := by
  refine ⟨rfl, ?_, rfl, rfl, rfl⟩
  decide

theorem begin_calls (B : Backend σ) (w : Session σ) :
    (DBTransaction.begin B .STATE_NO_START w).2.2.calls = w.calls ++ [.beginTransaction] ∧
    (∀ e, (DBTransaction.begin B .STATE_NO_START w).1 = .error e → e.isStd = false) := by
  unfold DBTransaction.begin
  cases h : (B.beginTransaction w.db).1 with
  | ok b => simp [Session.called, h]
  | error e =>
    cases he : e.isStd <;> simp [Session.called, Session.logError, h, he]

/-- In any state `rollback()` calls nothing or `Database::rollback` once. -/
theorem rollback_calls (B : Backend σ) (st : TransactionStates_t) (w : Session σ) :
    (DBTransaction.rollback B st w).2.2.calls = w.calls ∨
    (DBTransaction.rollback B st w).2.2.calls = w.calls ++ [.rollback] := by
  cases st with
  | STATE_START => exact Or.inr (rollback_started B w).2.1
  | STATE_NO_START => left; simp [DBTransaction.rollback]
  | STATE_COMMIT => left; simp [DBTransaction.rollback]

/-- In any state `commit()` calls nothing or `Database::commit` once, and throws
nothing that is a `std::exception`. -/
theorem commit_calls (B : Backend σ) (st : TransactionStates_t) (w : Session σ) :
    ((DBTransaction.commit B st w).2.2.calls = w.calls ∨
      (DBTransaction.commit B st w).2.2.calls = w.calls ++ [.commit]) ∧
    (∀ e, (DBTransaction.commit B st w).1 = .error e → e.isStd = false) := by
  cases st with
  | STATE_START => exact ⟨Or.inr (commit_started B w).2.1, (commit_started B w).2.2.2⟩
  | STATE_NO_START => simp [DBTransaction.commit, Session.logError]
  | STATE_COMMIT => simp [DBTransaction.commit, Session.logError]

theorem onThrow_calls (B : Backend σ) (e : Exception) (st : TransactionStates_t)
    (w : Session σ) :
    ((DBTransaction.onThrow B e st w).2.calls = w.calls ∨
      (DBTransaction.onThrow B e st w).2.calls = w.calls ++ [.rollback]) ∧
    (e.isStd = false → (DBTransaction.onThrow B e st w).2.calls = w.calls) := by
  unfold DBTransaction.onThrow
  cases he : e.isStd with
  | false => simp
  | true =>
    simp only [if_true, Bool.true_eq_false, false_implies, and_true]
    cases hr : (DBTransaction.rollback B st w).1 with
    | error e2 => exact rollback_calls B st w
    | ok x => exact rollback_calls B st w

/-- The calls of one run whose unit of work makes no transaction calls of its
own: BEGIN, then possibly the unit, then possibly one COMMIT or one ROLLBACK. -/
theorem executeWithinTransaction_own_calls (B : Backend σ) (u : UnitOfWork σ) (w : Session σ)
    (hplain : ∀ x, (u x).2.calls = x.calls) :
    (DBTransaction.executeWithinTransaction B u w).2.calls = w.calls ++ [.beginTransaction] ∨
    (DBTransaction.executeWithinTransaction B u w).2.calls =
      w.calls ++ [.beginTransaction, .toBeExecuted] ∨
    (DBTransaction.executeWithinTransaction B u w).2.calls =
      w.calls ++ [.beginTransaction, .toBeExecuted, .commit] ∨
    (DBTransaction.executeWithinTransaction B u w).2.calls =
      w.calls ++ [.beginTransaction, .toBeExecuted, .rollback] := by
  obtain ⟨hb, hbe⟩ := begin_calls B w
  have hentry : (u (DBTransaction.begin B .STATE_NO_START w).2.2.enterUnit).2.calls =
      w.calls ++ [.beginTransaction, .toBeExecuted] := by
    rw [hplain]
    simp [Session.enterUnit, hb]
  unfold DBTransaction.executeWithinTransaction
  cases h1 : (DBTransaction.begin B .STATE_NO_START w).1 with
  | error e =>
    left
    simp only [h1]
    rw [(onThrow_calls B e _ _).2 (hbe e h1), hb]
  | ok bb =>
    simp only [h1]
    cases h2 : (u (DBTransaction.begin B .STATE_NO_START w).2.2.enterUnit).1 with
    | error e =>
      simp only [h2]
      rcases (onThrow_calls B e (DBTransaction.begin B .STATE_NO_START w).2.1
        (u (DBTransaction.begin B .STATE_NO_START w).2.2.enterUnit).2).1 with h | h
      · right; left; rw [h, hentry]
      · right; right; right; rw [h, hentry]; simp
    | ok result =>
      simp only [h2]
      obtain ⟨hc, hce⟩ := commit_calls B (DBTransaction.begin B .STATE_NO_START w).2.1
        (u (DBTransaction.begin B .STATE_NO_START w).2.2.enterUnit).2
      have hc2 : (DBTransaction.commit B (DBTransaction.begin B .STATE_NO_START w).2.1
          (u (DBTransaction.begin B .STATE_NO_START w).2.2.enterUnit).2).2.2.calls =
            w.calls ++ [.beginTransaction, .toBeExecuted] ∨
          (DBTransaction.commit B (DBTransaction.begin B .STATE_NO_START w).2.1
          (u (DBTransaction.begin B .STATE_NO_START w).2.2.enterUnit).2).2.2.calls =
            w.calls ++ [.beginTransaction, .toBeExecuted, .commit] := by
        rcases hc with h | h
        · left; rw [h, hentry]
        · right; rw [h, hentry]; simp
      cases h3 : (DBTransaction.commit B (DBTransaction.begin B .STATE_NO_START w).2.1
          (u (DBTransaction.begin B .STATE_NO_START w).2.2.enterUnit).2).1 with
      | error e =>
        simp only []
        rw [(onThrow_calls B e _ _).2 (hce e h3)]
        rcases hc2 with h | h
        · right; left; exact h
        · right; right; left; exact h
      | ok x =>
        simp only []
        rcases hc2 with h | h
        · right; left; exact h
        · right; right; left; exact h

/-- What is open after two call lists in a row: the second starts from what the
first left open. -/
theorem openAfter_append (xs ys : List Call) : ∀ n,
    openAfter n (xs ++ ys) = openAfter (openAfter n xs) ys := by
  induction xs with
  | nil => intro n; rfl
  | cons c rest ih => intro n; cases c <;> simp [openAfter, ih]

/-- The most that is ever open over two call lists in a row is the larger of the
most over the first and the most over the second started from what the first left
open. -/
theorem maxOpen_append (xs ys : List Call) : ∀ n,
    maxOpen n (xs ++ ys) = max (maxOpen n xs) (maxOpen (openAfter n xs) ys) := by
  induction xs with
  | nil =>
    intro n
    have h : n ≤ maxOpen n ys := by cases ys with
      | nil => exact le_refl _
      | cons c rest => cases c <;> simp [maxOpen]
    simp [maxOpen, openAfter, h]
  | cons c rest ih =>
    intro n
    cases c <;> simp [maxOpen, openAfter, ih, max_assoc]

/-- C12 (amended): in every execution of `executeWithinTransaction` that is entered
with no transaction open on the connection and whose unit of work makes no
transaction calls of its own, exactly one BEGIN is called and, counting from what
the connection had open at entry, at most one transaction is open at every point
of the run. -/
theorem executeWithinTransaction_one_transaction (B : Backend σ) (u : UnitOfWork σ)
    (w : Session σ) (hentry : openAfter 0 w.calls = 0)
    (hplain : ∀ x, (u x).2.calls = x.calls) :
    ∃ own, (DBTransaction.executeWithinTransaction B u w).2.calls = w.calls ++ own ∧
      own.count .beginTransaction = 1 ∧
      maxOpen (openAfter 0 w.calls) own ≤ 1 ∧
      maxOpen 0 (DBTransaction.executeWithinTransaction B u w).2.calls ≤
        max (maxOpen 0 w.calls) 1 := by
  have hwhole : ∀ own, maxOpen (openAfter 0 w.calls) own ≤ 1 →
      maxOpen 0 (w.calls ++ own) ≤ max (maxOpen 0 w.calls) 1 := by
    intro own h
    rw [maxOpen_append]
    exact max_le_max (le_refl _) h
  rcases executeWithinTransaction_own_calls B u w hplain with h | h | h | h
  · have hm : maxOpen (openAfter 0 w.calls) [Call.beginTransaction] ≤ 1 := by
      rw [hentry]; decide
    exact ⟨_, h, by decide, hm, by rw [h]; exact hwhole _ hm⟩
  · have hm : maxOpen (openAfter 0 w.calls) [Call.beginTransaction, .toBeExecuted] ≤ 1 := by
      rw [hentry]; decide
    exact ⟨_, h, by decide, hm, by rw [h]; exact hwhole _ hm⟩
  · have hm : maxOpen (openAfter 0 w.calls)
        [Call.beginTransaction, .toBeExecuted, .commit] ≤ 1 := by
      rw [hentry]; decide
    exact ⟨_, h, by decide, hm, by rw [h]; exact hwhole _ hm⟩
  · have hm : maxOpen (openAfter 0 w.calls)
        [Call.beginTransaction, .toBeExecuted, .rollback] ≤ 1 := by
      rw [hentry]; decide
    exact ⟨_, h, by decide, hm, by rw [h]; exact hwhole _ hm⟩

/-- C12 (amended), on the test backend with a unit that writes and with one that
throws, both entered with nothing open; the inner run of a nested call is entered
with one transaction open, so the entry condition fails there and two are open. -/
theorem executeWithinTransaction_one_transaction_witness :
    openAfter 0 (testSession [1]).calls = 0 ∧
    (∃ own, (DBTransaction.executeWithinTransaction testBackend (writeRows [3] true)
        (testSession [1])).2.calls = (testSession [1]).calls ++ own ∧
      own.count .beginTransaction = 1 ∧
      maxOpen (openAfter 0 (testSession [1]).calls) own ≤ 1 ∧
      maxOpen 0 (DBTransaction.executeWithinTransaction testBackend (writeRows [3] true)
        (testSession [1])).2.calls ≤ max (maxOpen 0 (testSession [1]).calls) 1) ∧
    (∃ own, (DBTransaction.executeWithinTransaction testBackend (writeRowsThenThrow [3])
        (testSession [1])).2.calls = (testSession [1]).calls ++ own ∧
      own.count .beginTransaction = 1 ∧
      maxOpen (openAfter 0 (testSession [1]).calls) own ≤ 1 ∧
      maxOpen 0 (DBTransaction.executeWithinTransaction testBackend
        (writeRowsThenThrow [3]) (testSession [1])).2.calls ≤
        max (maxOpen 0 (testSession [1]).calls) 1) ∧
    maxOpen 0 (DBTransaction.executeWithinTransaction testBackend (writeRows [3] true)
      (testSession [1])).2.calls = 1 ∧
    openAfter 0 (DBTransaction.unitEntry testBackend (testSession [1])).calls = 1 ∧
    maxOpen (openAfter 0 (DBTransaction.unitEntry testBackend (testSession [1])).calls)
      [.beginTransaction, .toBeExecuted, .commit] = 2 :=
  ⟨by decide,
   executeWithinTransaction_one_transaction testBackend (writeRows [3] true) (testSession [1])
      (by decide) (fun _ => rfl),
   executeWithinTransaction_one_transaction testBackend (writeRowsThenThrow [3])
      (testSession [1]) (by decide) (fun _ => rfl),
   by decide, by decide, by decide⟩

/-- C12 as stated fails: a unit of work that itself calls
`executeWithinTransaction` gets a fresh `DBTransaction` in `STATE_NO_START`, whose
`begin` calls BEGIN again while the outer transaction is started: two BEGINs with
no COMMIT or ROLLBACK between them, two transactions open at once. -/
theorem executeWithinTransaction_nested_begins_twice :
    (DBTransaction.executeWithinTransaction testBackend
      (DBTransaction.executeWithinTransaction testBackend (writeRows [3] true))
      (testSession [1])).2.calls =
      [.beginTransaction, .toBeExecuted, .beginTransaction, .toBeExecuted, .commit, .commit] ∧
    maxOpen 0 (DBTransaction.executeWithinTransaction testBackend
      (DBTransaction.executeWithinTransaction testBackend (writeRows [3] true))
      (testSession [1])).2.calls = 2 ∧
    (DBTransaction.begin testBackend .STATE_NO_START
      (DBTransaction.unitEntry testBackend (testSession [1]))).2.1 = .STATE_START ∧
    (DBTransaction.begin testBackend .STATE_NO_START
      (DBTransaction.unitEntry testBackend (testSession [1]))).2.2.calls =
      [.beginTransaction, .toBeExecuted, .beginTransaction] := by
  refine ⟨rfl, ?_, rfl, rfl⟩
  decide

/-! ## The claims about queries, logging, the packet size, retries and batches -/

/-- C13: in each query `IOLoginData` builds from text (authenticateAccountSession,
loadPlayerByName, getGuidByName, getGuidByNameEx, formatPlayerName, addVIPEntry,
editVIPEntry) the text supplied by the caller reaches the SQL only as the output
of `escapeString`: the SQL is one fixed function of the escaped text, whatever
the escaping function is (for the session id, the text escaped is its SHA-1
digest; the other arguments are numbers). -/
theorem IOLoginData_queries_only_escaped :
    (∃ template : String → String, ∀ (escapeString transformToSHA1 : String → String)
      (sessionId : String),
      IOLoginData.authenticateAccountSession_query escapeString transformToSHA1 sessionId =
        template (escapeString (transformToSHA1 sessionId))) ∧
    OnlyEscaped IOLoginData.loadPlayerByName_query ∧
    OnlyEscaped IOLoginData.getGuidByName_query ∧
    OnlyEscaped IOLoginData.getGuidByNameEx_query ∧
    OnlyEscaped IOLoginData.formatPlayerName_query ∧
    (∀ (accountId guid icon : Nat) (notify : Bool), OnlyEscaped (fun escapeString description =>
      IOLoginData.addVIPEntry_query escapeString accountId guid description icon notify)) ∧
    (∀ (accountId guid icon : Nat) (notify : Bool), OnlyEscaped (fun escapeString description =>
      IOLoginData.editVIPEntry_query escapeString accountId guid description icon notify)) := by
  refine ⟨⟨fun t => "SELECT `account_id`, `expires` FROM `account_sessions` WHERE `id` = " ++ t,
      fun _ _ _ => rfl⟩,
    ⟨fun t => "SELECT * FROM `players` WHERE `name` = " ++ t, fun _ _ => rfl⟩,
    ⟨fun t => "SELECT `id` FROM `players` WHERE `name` = " ++ t, fun _ _ => rfl⟩,
    ⟨fun t => "SELECT `name`, `id`, `group_id`, `account_id` FROM `players` WHERE `name` = "
      ++ t, fun _ _ => rfl⟩,
    ⟨fun t => "SELECT `name` FROM `players` WHERE `name` = " ++ t, fun _ _ => rfl⟩, ?_, ?_⟩
  · intro accountId guid icon notify
    exact ⟨fun t => IOLoginData.addVIPEntry_query (fun _ => t) accountId guid "" icon notify,
      fun _ _ => rfl⟩
  · intro accountId guid icon notify
    exact ⟨fun t => IOLoginData.editVIPEntry_query (fun _ => t) accountId guid "" icon notify,
      fun _ _ => rfl⟩

/-- C14 (amended): for every supported `T`, `getNumber<T>` on an unknown column
appends exactly one entry to the log, at level error, and on a null cell appends
nothing. -/
theorem getNumber_log_missing_or_null (dm : DataModel) (T : NumType) (res : DBResult)
    (s : String) (logger : Logger)
    (h : res.listNames.lookup s = none ∨
      ∃ idx, res.listNames.lookup s = some idx ∧ res.row idx = none) :
    (res.getNumber dm T s logger).2 =
      if res.listNames.lookup s = none then
        logger ++ [{ level := "error",
                     message := "[DBResult::getNumber] - Column '" ++ s
                       ++ "' doesn't exist in the result set" }]
      else logger := by
  rcases h with h | ⟨idx, hcol, hcell⟩
  · simp only [DBResult.getNumber, h, if_true, Logger.error, Logger.log]
  · simp [DBResult.getNumber, hcol, hcell]

/-- C14 (amended), on an unknown column and on a null cell. -/
theorem getNumber_log_missing_or_null_witness :
    ((DBResult.single "id" (some ['7'])).getNumber .LP64 .uint16 "name" []).2 =
      [{ level := "error",
         message := "[DBResult::getNumber] - Column 'name' doesn't exist in the result set" }] ∧
    ((DBResult.single "id" none).getNumber .LP64 .bool "id" []).2 = [] :=
  ⟨getNumber_log_missing_or_null .LP64 .uint16 (DBResult.single "id" (some ['7'])) "name" []
      (Or.inl (by decide)),
   getNumber_log_missing_or_null .LP64 .bool (DBResult.single "id" none) "id" []
      (Or.inr ⟨0, by decide, rfl⟩)⟩

/-- C14 as stated fails: the entry logged for an unknown column has level error,
not warning, and a null cell logs no entry at all. -/
theorem getNumber_logs_error_or_nothing :
    (((DBResult.single "id" (some ['7'])).getNumber .LP64 .int32 "name" []).2.map
      LogEntry.level) = ["error"] ∧
    ((DBResult.single "id" none).getNumber .LP64 .int32 "id" []).2 = [] := by
  exact ⟨rfl, rfl⟩

/-- C15: a `Database` as constructed, before any connection sets the packet size,
reports `getMaxPacketSize() = 1048576`; and `getMaxPacketSize` returns the stored
`maxPacketSize` and leaves the object as it was. -/
theorem getMaxPacketSize_default :
    Database.new.getMaxPacketSize.1 = 1048576 ∧
    ∀ db : Database, db.getMaxPacketSize = (db.maxPacketSize, db) :=
  ⟨rfl, fun _ => rfl⟩

/-- The run of `retryQuery` from attempt `a`: `n` issues of the same statement,
`n` at most the budget plus one, every attempt but the last failed with a
recoverable error, and the result is the success of the last. -/
theorem retryQuery_run (backend : Nat → QueryOutcome) (query : String) (retries : Nat) :
    ∀ a, ∃ n, 1 ≤ n ∧ n ≤ retries + 1 ∧
      (Database.retryQuery backend query retries a).2 = List.replicate n query ∧
      (∀ k, k + 1 < n → ∃ e, backend (a + k) = .failure e ∧
        Database.isRecoverableError e = true) ∧
      ((Database.retryQuery backend query retries a).1 = true ↔
        backend (a + (n - 1)) = .success) ∧
      ((Database.retryQuery backend query retries a).1 = false →
        ∃ e, backend (a + (n - 1)) = .failure e ∧
          (Database.isRecoverableError e = false ∨ n = retries + 1)) := by
  induction retries with
  | zero =>
    intro a
    refine ⟨1, le_refl _, le_refl _, ?_⟩
    simp only [Database.retryQuery]
    cases h : backend a with
    | success => simp [h]
    | failure e => simp [h]
  | succ budget ih =>
    intro a
    simp only [Database.retryQuery]
    cases h : backend a with
    | success => exact ⟨1, le_refl _, by omega, by simp [h]⟩
    | failure e =>
      cases hr : Database.isRecoverableError e with
      | false => exact ⟨1, le_refl _, by omega, by simp [h, hr]⟩
      | true =>
        obtain ⟨n, h1, h2, hlist, hbefore, htrue, hfalse⟩ := ih (a + 1)
        have hidx : a + (n + 1 - 1) = a + 1 + (n - 1) := by omega
        simp only [hr, if_true]
        refine ⟨n + 1, by omega, by omega, ?_, ?_, ?_, ?_⟩
        · simp [hlist, List.replicate_succ]
        · intro k hk
          cases k with
          | zero => exact ⟨e, h, hr⟩
          | succ k =>
            obtain ⟨e2, he2, hr2⟩ := hbefore k (by omega)
            exact ⟨e2, by rw [show a + (k + 1) = a + 1 + k by omega]; exact he2, hr2⟩
        · rw [hidx]
          exact htrue
        · rw [hidx]
          intro hf
          obtain ⟨e2, he2, hor⟩ := hfalse hf
          exact ⟨e2, he2, hor.imp id (by omega)⟩

/-- C16: for every statement, retry budget and sequence of backend outcomes,
`executeQuery` issues the same statement `n` times with `1 ≤ n ≤ budget + 1`; it
re-issues only after a recoverable error; it returns true exactly when the last
attempt succeeds, and false after an error that is not recoverable or with the
budget exhausted. -/
theorem executeQuery_retry_policy (retryBudget : Nat) (backend : Nat → QueryOutcome)
    (query : String) :
    ∃ n, 1 ≤ n ∧ n ≤ retryBudget + 1 ∧
      (Database.executeQuery retryBudget backend query).2 = List.replicate n query ∧
      (∀ k, k + 1 < n → ∃ e, backend k = .failure e ∧ Database.isRecoverableError e = true) ∧
      ((Database.executeQuery retryBudget backend query).1 = true ↔
        backend (n - 1) = .success) ∧
      ((Database.executeQuery retryBudget backend query).1 = false →
        ∃ e, backend (n - 1) = .failure e ∧
          (Database.isRecoverableError e = false ∨ n = retryBudget + 1)) := by
  obtain ⟨n, h1, h2, h3, h4, h5, h6⟩ := retryQuery_run backend query retryBudget 0
  refine ⟨n, h1, h2, h3, ?_, ?_, ?_⟩
  · intro k hk
    simpa using h4 k hk
  · simpa using h5
  · simpa using h6

/-- A row `addRow` accepts is appended as one more tuple, and the statement that
results is within the packet size. -/
theorem addRow_accepts (db : Database) (self : DBInsert) (row : String)
    (h : (self.withRow row).statement.utf8ByteSize ≤ db.maxPacketSize) :
    DBInsert.addRow db self row = (true, self.withRow row) := by
  simp [DBInsert.addRow, Nat.not_lt.mpr h]

/-- The boolean `addRow` returns is false exactly when the resulting statement
would exceed the packet size. -/
theorem addRow_false_iff (db : Database) (self : DBInsert) (row : String) :
    (DBInsert.addRow db self row).1 = false ↔
      db.maxPacketSize < (self.withRow row).statement.utf8ByteSize := by
  unfold DBInsert.addRow
  split <;> simp_all

/-- A statement within the packet size stays within it over `addRow`, accepted or
refused: every flush is within the negotiated limit. -/
theorem addRow_within_packet (db : Database) (self : DBInsert) (row : String)
    (h : self.statement.utf8ByteSize ≤ db.maxPacketSize) :
    (DBInsert.addRow db self row).2.statement.utf8ByteSize ≤ db.maxPacketSize := by
  unfold DBInsert.addRow
  split
  · exact h
  · rename_i hn
    exact Nat.not_lt.mp hn

/-- Over every sequence of calls on a newly constructed `DBInsert` the running byte
length is the byte length of the statement held. -/
theorem run_length (query : String) (ops : List InsertOp) :
    ((DBInsert.new query).run ops).length =
      ((DBInsert.new query).run ops).statement.utf8ByteSize := by
  have hstep : ∀ (ops : List InsertOp) (self : DBInsert),
      self.length = self.statement.utf8ByteSize →
      (self.run ops).length = (self.run ops).statement.utf8ByteSize := by
    intro ops
    induction ops with
    | nil => intro self h; exact h
    | cons op rest ih =>
      intro self h
      apply ih
      cases op with
      | upsert columns => rfl
      | addRow db row =>
        simp only [DBInsert.apply, DBInsert.addRow]
        split
        · exact h
        · rfl
      | execute sent =>
        simp [DBInsert.apply, DBInsert.execute, DBInsert.statement]
  apply hstep
  simp [DBInsert.new, DBInsert.statement, DBInsert.upsertClause]

/-- The byte length of two texts in a row is the sum of their byte lengths. -/
theorem byteSize_append (s t : String) :
    (s ++ t).utf8ByteSize = s.utf8ByteSize + t.utf8ByteSize := by
  show String.utf8ByteSize ⟨s.data ++ t.data⟩ = _
  simp [String.utf8ByteSize_mk, String.utf8Len_append]
  rfl

/-- A text of no bytes is the empty text as `isEmpty` sees it. -/
theorem isEmpty_iff_byteSize (s : String) : s.isEmpty = true ↔ s.utf8ByteSize = 0 := by
  simp [String.isEmpty, String.endPos, String.Pos.ext_iff]

/-- The worked example for every query text of at most 15 bytes and every three
rows of 40 bytes: at packet size 100 a new `DBInsert` takes the first two rows and
refuses the third, the two rows still accumulated. -/
theorem addRow_third_refused (db : Database) (query r1 r2 r3 : String)
    (hdb : db.maxPacketSize = 100) (hq : query.utf8ByteSize ≤ 15)
    (h1 : r1.utf8ByteSize = 40) (h2 : r2.utf8ByteSize = 40) (h3 : r3.utf8ByteSize = 40) :
    DBInsert.addRow db (DBInsert.new query) r1 = (true, (DBInsert.new query).withRow r1) ∧
    DBInsert.addRow db ((DBInsert.new query).withRow r1) r2 =
      (true, ((DBInsert.new query).withRow r1).withRow r2) ∧
    DBInsert.addRow db (((DBInsert.new query).withRow r1).withRow r2) r3 =
      (false, ((DBInsert.new query).withRow r1).withRow r2) ∧
    (((DBInsert.new query).withRow r1).withRow r2).values =
      "(" ++ r1 ++ ")" ++ ",(" ++ r2 ++ ")" := by
  have hp : ("(" : String).utf8ByteSize = 1 := by decide
  have hc : (")" : String).utf8ByteSize = 1 := by decide
  have hs : (",(" : String).utf8ByteSize = 2 := by decide
  have he : ("" : String).utf8ByteSize = 0 := by decide
  have h0 : ("" : String).isEmpty = true := by decide
  have hv1 : DBInsert.appendRow "" r1 = "(" ++ r1 ++ ")" := by
    simp only [DBInsert.appendRow, h0, if_true]
  have hn1 : ("(" ++ r1 ++ ")").isEmpty = false := by
    cases h : ("(" ++ r1 ++ ")").isEmpty with
    | false => rfl
    | true =>
      rw [isEmpty_iff_byteSize] at h
      simp only [byteSize_append, hp, hc, h1] at h
      omega
  have hv2 : DBInsert.appendRow ("(" ++ r1 ++ ")") r2 = "(" ++ r1 ++ ")" ++ ",(" ++ r2 ++ ")" := by
    simp [DBInsert.appendRow, hn1]
  have hn2 : ("(" ++ r1 ++ ")" ++ ",(" ++ r2 ++ ")").isEmpty = false := by
    cases h : ("(" ++ r1 ++ ")" ++ ",(" ++ r2 ++ ")").isEmpty with
    | false => rfl
    | true =>
      rw [isEmpty_iff_byteSize] at h
      simp only [byteSize_append, hp, hc, hs, h1, h2] at h
      omega
  have hw1 : (DBInsert.new query).withRow r1 =
      { upsertColumns := [], query := query, values := "(" ++ r1 ++ ")",
        length := (query ++ ("(" ++ r1 ++ ")") ++ "").utf8ByteSize } := by
    simp [DBInsert.withRow, DBInsert.new, hv1, DBInsert.upsertClause]
  have hw2 : ((DBInsert.new query).withRow r1).withRow r2 =
      { upsertColumns := [], query := query, values := "(" ++ r1 ++ ")" ++ ",(" ++ r2 ++ ")",
        length := (query ++ ("(" ++ r1 ++ ")" ++ ",(" ++ r2 ++ ")") ++ "").utf8ByteSize } := by
    rw [hw1]
    simp [DBInsert.withRow, hv2, DBInsert.upsertClause]
  refine ⟨?_, ?_, ?_, ?_⟩
  · apply addRow_accepts
    rw [hw1, hdb]
    simp only [DBInsert.statement, DBInsert.upsertClause, byteSize_append, hp, hc, h1, he,
      List.isEmpty_nil, if_true]
    omega
  · apply addRow_accepts
    rw [hw2, hdb]
    simp only [DBInsert.statement, DBInsert.upsertClause, byteSize_append, hp, hc, hs, h1, h2,
      he, List.isEmpty_nil, if_true]
    omega
  · have hk : db.maxPacketSize <
        ((((DBInsert.new query).withRow r1).withRow r2).withRow r3).statement.utf8ByteSize := by
      rw [hw2, hdb]
      simp only [DBInsert.withRow, DBInsert.appendRow, hn2, DBInsert.statement,
        DBInsert.upsertClause, byteSize_append, hp, hc, hs, h1, h2, h3, he,
        List.isEmpty_nil, if_true]
      simp [byteSize_append, hp, hc, hs, h1, h2, h3]
    unfold DBInsert.addRow
    rw [if_pos hk]
  · rw [hw2]

/-- C17: for every `DBInsert` state and row, `addRow` returns false and leaves the
accumulated values and length (the whole state) unchanged when appending the row
would make the statement (query text, accumulated tuples with the new one, upsert
fragment) exceed the max packet size. -/
theorem addRow_refuses (db : Database) (self : DBInsert) (row : String)
    (h : db.maxPacketSize <
      (self.query ++ DBInsert.appendRow self.values row ++
        DBInsert.upsertClause self.upsertColumns).utf8ByteSize) :
    DBInsert.addRow db self row = (false, self) ∧
      (DBInsert.addRow db self row).2.values = self.values ∧
      (DBInsert.addRow db self row).2.length = self.length := by
  have hk : DBInsert.addRow db self row = (false, self) := by
    unfold DBInsert.addRow
    rw [if_pos]
    exact h
  rw [hk]
  exact ⟨rfl, rfl, rfl⟩

set_option maxRecDepth 8192 in
/-- C17, the worked example: with packet size 100 and rows of 40 bytes the first
two `addRow` return true, the third returns false and leaves the buffer with the
two rows; after `execute()` the row is accepted.  A second row of 50 bytes after
one of 50 bytes, a row after a query of 120 bytes and a row of 40 bytes before an
upsert fragment of three columns are refused as well. -/
theorem addRow_refuses_witness :
    (DBInsert.addRow { Database.new with maxPacketSize := 100 } (DBInsert.new "INSERT")
      (fortyByteRow 'a')).1 = true ∧
    (DBInsert.addRow { Database.new with maxPacketSize := 100 }
      (DBInsert.addRow { Database.new with maxPacketSize := 100 } (DBInsert.new "INSERT")
        (fortyByteRow 'a')).2 (fortyByteRow 'b')).1 = true ∧
    (DBInsert.addRow { Database.new with maxPacketSize := 100 }
      (DBInsert.addRow { Database.new with maxPacketSize := 100 } (DBInsert.new "INSERT")
        (fortyByteRow 'a')).2 (fortyByteRow 'b')).2 =
      { upsertColumns := [], query := "INSERT",
        values := "(aaaaaaaaaaaaaaaaaaaaaaaaaaaaaaaaaaaaaaaa),(bbbbbbbbbbbbbbbbbbbbbbbbbbbbbbbbbbbbbbbb)",
        length := 91 } ∧
    (DBInsert.addRow { Database.new with maxPacketSize := 100 }
        { upsertColumns := [], query := "INSERT",
          values := "(aaaaaaaaaaaaaaaaaaaaaaaaaaaaaaaaaaaaaaaa),(bbbbbbbbbbbbbbbbbbbbbbbbbbbbbbbbbbbbbbbb)",
          length := 91 } (fortyByteRow 'c') =
      (false,
        { upsertColumns := [], query := "INSERT",
          values := "(aaaaaaaaaaaaaaaaaaaaaaaaaaaaaaaaaaaaaaaa),(bbbbbbbbbbbbbbbbbbbbbbbbbbbbbbbbbbbbbbbb)",
          length := 91 }) ∧
      (DBInsert.addRow { Database.new with maxPacketSize := 100 }
        { upsertColumns := [], query := "INSERT",
          values := "(aaaaaaaaaaaaaaaaaaaaaaaaaaaaaaaaaaaaaaaa),(bbbbbbbbbbbbbbbbbbbbbbbbbbbbbbbbbbbbbbbb)",
          length := 91 } (fortyByteRow 'c')).2.values =
        "(aaaaaaaaaaaaaaaaaaaaaaaaaaaaaaaaaaaaaaaa),(bbbbbbbbbbbbbbbbbbbbbbbbbbbbbbbbbbbbbbbb)" ∧
      (DBInsert.addRow { Database.new with maxPacketSize := 100 }
        { upsertColumns := [], query := "INSERT",
          values := "(aaaaaaaaaaaaaaaaaaaaaaaaaaaaaaaaaaaaaaaa),(bbbbbbbbbbbbbbbbbbbbbbbbbbbbbbbbbbbbbbbb)",
          length := 91 } (fortyByteRow 'c')).2.length = 91) ∧
    (DBInsert.addRow { Database.new with maxPacketSize := 100 }
      (DBInsert.execute true
        (DBInsert.addRow { Database.new with maxPacketSize := 100 }
          (DBInsert.addRow { Database.new with maxPacketSize := 100 } (DBInsert.new "INSERT")
            (fortyByteRow 'a')).2 (fortyByteRow 'b')).2).2 (fortyByteRow 'c')).1 = true ∧
    (DBInsert.addRow { Database.new with maxPacketSize := 100 }
      (DBInsert.addRow { Database.new with maxPacketSize := 100 } (DBInsert.new "")
        (String.mk (List.replicate 50 'a'))).2 (String.mk (List.replicate 50 'b'))).1 = false ∧
    (DBInsert.addRow { Database.new with maxPacketSize := 100 }
      (DBInsert.new (String.mk (List.replicate 120 'q'))) "1").1 = false ∧
    (DBInsert.addRow { Database.new with maxPacketSize := 100 }
      ((DBInsert.new "INSERT").upsert ["name", "level", "health"]) (fortyByteRow 'a')).1 =
        false := by
  refine ⟨by decide, by decide, by decide, ?_, by decide, by decide, by decide, by decide⟩
  exact addRow_refuses { Database.new with maxPacketSize := 100 }
    { upsertColumns := [], query := "INSERT",
      values := "(aaaaaaaaaaaaaaaaaaaaaaaaaaaaaaaaaaaaaaaa),(bbbbbbbbbbbbbbbbbbbbbbbbbbbbbbbbbbbbbbbb)",
      length := 91 } (fortyByteRow 'c') (by decide)

/-! ## The claims about the states of a `DBTransaction` -/

/-- Out of `STATE_COMMIT` every operation leaves the state, the backend and the
calls as they were. -/
theorem apply_committed (B : Backend σ) (op : TransactionOp) (w : Session σ) :
    (DBTransaction.apply B op (.STATE_COMMIT, w)).1 = .STATE_COMMIT ∧
    (DBTransaction.apply B op (.STATE_COMMIT, w)).2.calls = w.calls ∧
    (DBTransaction.apply B op (.STATE_COMMIT, w)).2.db = w.db := by
  cases op <;>
    simp [DBTransaction.apply, DBTransaction.begin, DBTransaction.commit,
      DBTransaction.rollback, Session.logError]

theorem applyAll_committed (B : Backend σ) (ops : List TransactionOp) :
    ∀ w : Session σ,
      (DBTransaction.applyAll B ops (.STATE_COMMIT, w)).1 = .STATE_COMMIT ∧
      (DBTransaction.applyAll B ops (.STATE_COMMIT, w)).2.calls = w.calls ∧
      (DBTransaction.applyAll B ops (.STATE_COMMIT, w)).2.db = w.db := by
  induction ops with
  | nil => intro w; exact ⟨rfl, rfl, rfl⟩
  | cons op rest ih =>
    intro w
    obtain ⟨h1, h2, h3⟩ := apply_committed B op w
    have hstep : DBTransaction.apply B op (.STATE_COMMIT, w) =
        (.STATE_COMMIT, (DBTransaction.apply B op (.STATE_COMMIT, w)).2) :=
      Prod.ext h1 rfl
    have hrun : DBTransaction.applyAll B (op :: rest) (.STATE_COMMIT, w) =
        DBTransaction.applyAll B rest (DBTransaction.apply B op (.STATE_COMMIT, w)) := rfl
    rw [hrun, hstep]
    obtain ⟨g1, g2, g3⟩ := ih (DBTransaction.apply B op (.STATE_COMMIT, w)).2
    exact ⟨g1, g2.trans h2, g3.trans h3⟩

/-- C19: with a backend that does not throw, `begin` changes the state only from
`STATE_NO_START` to `STATE_START`, `commit` only from `STATE_START` to
`STATE_COMMIT`, `rollback` only from `STATE_START` to `STATE_NO_START`; so no
sequence of operations leaves `STATE_COMMIT`, and after a commit no operation of
the instance calls ROLLBACK (or anything else) on the backend. -/
theorem transaction_state_changes (B : Backend σ) (h : B.neverThrows) :
    (∀ st w, (DBTransaction.begin B st w).2.1 =
      if st = .STATE_NO_START then .STATE_START else st) ∧
    (∀ st w, (DBTransaction.commit B st w).2.1 =
      if st = .STATE_START then .STATE_COMMIT else st) ∧
    (∀ st w, (DBTransaction.rollback B st w).2.1 =
      if st = .STATE_START then .STATE_NO_START else st) ∧
    (∀ ops w, (DBTransaction.applyAll B ops (.STATE_COMMIT, w)).1 = .STATE_COMMIT ∧
      (DBTransaction.applyAll B ops (.STATE_COMMIT, w)).2.calls = w.calls ∧
      (DBTransaction.applyAll B ops (.STATE_COMMIT, w)).2.db = w.db) := by
  refine ⟨?_, ?_, ?_, fun ops w => applyAll_committed B ops w⟩
  · intro st w
    obtain ⟨⟨b, hb⟩, -, -⟩ := h w.db
    cases st <;> simp [DBTransaction.begin, hb]
  · intro st w
    obtain ⟨-, -, ⟨b, hb⟩⟩ := h w.db
    cases st <;> simp [DBTransaction.commit, hb]
  · intro st w
    obtain ⟨-, ⟨b, hb⟩, -⟩ := h w.db
    cases st <;> simp [DBTransaction.rollback, hb]

/-- C19, on the test backend: begin, commit, then rollback and begin again end in
`STATE_COMMIT` with the calls BEGIN and COMMIT only. -/
theorem transaction_state_changes_witness :
    DBTransaction.applyAll testBackend [.begin, .commit, .rollback, .begin]
        (.STATE_NO_START, testSession [1]) =
      (.STATE_COMMIT, { db := { rows := [1], atBegin := none },
                        calls := [.beginTransaction, .commit], logger := [] }) ∧
    ((DBTransaction.applyAll testBackend [.rollback, .begin, .commit]
        (.STATE_COMMIT, testSession [1])).1 = .STATE_COMMIT ∧
      (DBTransaction.applyAll testBackend [.rollback, .begin, .commit]
        (.STATE_COMMIT, testSession [1])).2.calls = (testSession [1]).calls ∧
      (DBTransaction.applyAll testBackend [.rollback, .begin, .commit]
        (.STATE_COMMIT, testSession [1])).2.db = (testSession [1]).db) :=
  ⟨rfl, (transaction_state_changes testBackend
      (fun _ => ⟨⟨true, rfl⟩, ⟨true, rfl⟩, ⟨true, rfl⟩⟩)).2.2.2 [.rollback, .begin, .commit]
      (testSession [1])⟩

/-- C20: an operation invoked in a state where it is not enabled does nothing to
the transaction and the backend: `begin` in `STATE_START` or `STATE_COMMIT` returns
false, `rollback` and `commit` in `STATE_NO_START` or `STATE_COMMIT` return
normally; the state is unchanged, no BEGIN, COMMIT or ROLLBACK is called (`commit`
logs that the transaction is not started). -/
theorem disabled_operation_noop (B : Backend σ) (w : Session σ) :
    DBTransaction.begin B .STATE_START w = (.ok false, .STATE_START, w) ∧
    DBTransaction.begin B .STATE_COMMIT w = (.ok false, .STATE_COMMIT, w) ∧
    DBTransaction.rollback B .STATE_NO_START w = (.ok (), .STATE_NO_START, w) ∧
    DBTransaction.rollback B .STATE_COMMIT w = (.ok (), .STATE_COMMIT, w) ∧
    DBTransaction.commit B .STATE_NO_START w =
      (.ok (), .STATE_NO_START, w.logError "Transaction not started") ∧
    DBTransaction.commit B .STATE_COMMIT w =
      (.ok (), .STATE_COMMIT, w.logError "Transaction not started") ∧
    (w.logError "Transaction not started").calls = w.calls ∧
    (w.logError "Transaction not started").db = w.db := by
  simp [DBTransaction.begin, DBTransaction.rollback, DBTransaction.commit, Session.logError]

/-! ## The claims about a failing `begin` and a throwing `commit` -/

/-- When `beginTransaction` throws a `std::exception`, `begin` returns false with
the state back at `STATE_NO_START`, after the call and one log line. -/
theorem begin_of_std_eq (B : Backend σ) (w : Session σ) (e : Exception)
    (h : (B.beginTransaction w.db).1 = .error e) (he : e.isStd = true) :
    DBTransaction.begin B .STATE_NO_START w =
      (.ok false, .STATE_NO_START,
        (w.called .beginTransaction (B.beginTransaction w.db).2).logError
          ("[begin] An error occurred while starting the transaction, error: " ++ e.what)) := by
  simp [DBTransaction.begin, h, he]

/-- A run whose `beginTransaction` threw a `std::exception`: the function itself
calls neither COMMIT nor ROLLBACK and leaves the backend as the unit left it; a
result of the unit is returned. -/
theorem executeWithinTransaction_of_begin_std (B : Backend σ) (u : UnitOfWork σ)
    (w : Session σ) (e : Exception) (h : (B.beginTransaction w.db).1 = .error e)
    (he : e.isStd = true) :
    (DBTransaction.executeWithinTransaction B u w).2.calls =
      (u (DBTransaction.unitEntered B w)).2.calls ∧
    (DBTransaction.executeWithinTransaction B u w).2.db =
      (u (DBTransaction.unitEntered B w)).2.db ∧
    (∀ b, (u (DBTransaction.unitEntered B w)).1 = .ok b →
      (DBTransaction.executeWithinTransaction B u w).1 = .ok b) := by
  have hb := begin_of_std_eq B w e h he
  unfold DBTransaction.unitEntered
  unfold DBTransaction.executeWithinTransaction
  rw [hb]
  simp only
  cases hu : (u ((w.called .beginTransaction (B.beginTransaction w.db).2).logError
      ("[begin] An error occurred while starting the transaction, error: "
        ++ e.what)).enterUnit).1 with
  | ok b =>
    simp [DBTransaction.commit, Session.logError]
  | error e2 =>
    cases he2 : e2.isStd <;>
      simp [DBTransaction.onThrow, DBTransaction.rollback, Session.logError, he2]

theorem unitEntered_calls (B : Backend σ) (w : Session σ) :
    (DBTransaction.unitEntered B w).calls = w.calls ++ [.beginTransaction, .toBeExecuted] := by
  simp [DBTransaction.unitEntered, Session.enterUnit, (begin_calls B w).1]

theorem unitEntered_of_begin_ok (B : Backend σ) (w : Session σ) (bb : Bool)
    (h : (B.beginTransaction w.db).1 = .ok bb) :
    DBTransaction.unitEntered B w = DBTransaction.unitEntry B w := by
  simp [DBTransaction.unitEntered, DBTransaction.unitEntry, begin_of_ok B w bb h]

/-- C21: when the backend primitives throw nothing but `std::exception` and
`beginTransaction` fails, by returning false or by throwing,
`executeWithinTransaction` still enters the unit of work, once, after the BEGIN
call, and returns the result of the unit when the unit does not throw; when
`beginTransaction` threw, the function calls neither COMMIT nor ROLLBACK and the
backend stays as the unit left it; when it returned false, COMMIT follows the
unit. -/
theorem executeWithinTransaction_begin_fails (B : Backend σ) (u : UnitOfWork σ)
    (w : Session σ) (hstd : B.throwsOnlyStd)
    (hfail : (B.beginTransaction w.db).1 = .ok false ∨
      ∃ e, (B.beginTransaction w.db).1 = .error e) :
    (DBTransaction.unitEntered B w).calls = w.calls ++ [.beginTransaction, .toBeExecuted] ∧
    (∀ b, (u (DBTransaction.unitEntered B w)).1 = .ok b →
      (DBTransaction.executeWithinTransaction B u w).1 = .ok b) ∧
    ((∃ e, (B.beginTransaction w.db).1 = .error e) →
      (DBTransaction.executeWithinTransaction B u w).2.calls =
        (u (DBTransaction.unitEntered B w)).2.calls ∧
      (DBTransaction.executeWithinTransaction B u w).2.db =
        (u (DBTransaction.unitEntered B w)).2.db) ∧
    ((B.beginTransaction w.db).1 = .ok false →
      ∀ b, (u (DBTransaction.unitEntered B w)).1 = .ok b →
        (DBTransaction.executeWithinTransaction B u w).2.calls =
          (u (DBTransaction.unitEntered B w)).2.calls ++ [.commit]) := by
  have hok : ∀ bb, (B.beginTransaction w.db).1 = .ok bb →
      ∀ b, (u (DBTransaction.unitEntered B w)).1 = .ok b →
        (DBTransaction.executeWithinTransaction B u w).1 = .ok b ∧
        (DBTransaction.executeWithinTransaction B u w).2.calls =
          (u (DBTransaction.unitEntered B w)).2.calls ++ [.commit] := by
    intro bb hbb b hb
    rw [unitEntered_of_begin_ok B w bb hbb] at hb ⊢
    exact executeWithinTransaction_of_unit_ok B u w bb b hbb hb
      (fun e he => hstd _ e (Or.inr (Or.inr he)))
  refine ⟨unitEntered_calls B w, ?_, ?_, ?_⟩
  · intro b hb
    rcases hfail with h | ⟨e, h⟩
    · exact (hok false h b hb).1
    · exact (executeWithinTransaction_of_begin_std B u w e h
        (hstd _ e (Or.inl h))).2.2 b hb
  · rintro ⟨e, h⟩
    obtain ⟨h1, h2, -⟩ := executeWithinTransaction_of_begin_std B u w e h
      (hstd _ e (Or.inl h))
    exact ⟨h1, h2⟩
  · intro h b hb
    exact (hok false h b hb).2

/-- C21, on a backend whose `beginTransaction` throws (the two rows are written with
no BEGIN in effect, no COMMIT and no ROLLBACK) and on one whose `beginTransaction`
returns false (the unit runs and COMMIT follows). -/
theorem executeWithinTransaction_begin_fails_witness :
    DBTransaction.executeWithinTransaction throwingBeginBackend (writeRows [3, 4] true)
        (testSession [1, 2]) =
      (.ok true,
        { db := { rows := [1, 2, 3, 4], atBegin := none },
          calls := [.beginTransaction, .toBeExecuted],
          logger :=
            [{ level := "error",
               message := "[begin] An error occurred while starting the transaction, error: connection lost" },
             { level := "error", message := "Transaction not started" }] }) ∧
    (DBTransaction.executeWithinTransaction throwingBeginBackend (writeRows [3, 4] true)
        (testSession [1, 2])).2.calls =
      (writeRows [3, 4] true
        (DBTransaction.unitEntered throwingBeginBackend (testSession [1, 2]))).2.calls ∧
    (DBTransaction.executeWithinTransaction falseBeginBackend (writeRows [3, 4] false)
        (testSession [1, 2])).1 = .ok false ∧
    (DBTransaction.executeWithinTransaction falseBeginBackend (writeRows [3, 4] false)
        (testSession [1, 2])).2.calls = [.beginTransaction, .toBeExecuted, .commit] := by
  have hstd1 : throwingBeginBackend.throwsOnlyStd := by
    intro s e h
    rcases h with h | h | h <;> cases h
    rfl
  have hstd2 : falseBeginBackend.throwsOnlyStd := by
    intro s e h
    rcases h with h | h | h <;> cases h
  have h1 := executeWithinTransaction_begin_fails throwingBeginBackend (writeRows [3, 4] true)
    (testSession [1, 2]) hstd1 (Or.inr ⟨_, rfl⟩)
  have h2 := executeWithinTransaction_begin_fails falseBeginBackend (writeRows [3, 4] false)
    (testSession [1, 2]) hstd2 (Or.inl rfl)
  exact ⟨rfl, (h1.2.2.1 ⟨_, rfl⟩).1, h2.2.1 false rfl, h2.2.2.2 rfl false rfl⟩

/-- C22: when `beginTransaction` did not throw, the unit of work returns true and
the backend `commit` then throws a `std::exception`, `executeWithinTransaction`
still returns true: `commit()` catches the exception, logs it and puts the state
back to `STATE_NO_START`, and after the unit the function calls COMMIT only, no
ROLLBACK. -/
theorem executeWithinTransaction_commit_throws (B : Backend σ) (u : UnitOfWork σ)
    (w : Session σ) (bb : Bool) (e : Exception)
    (hbegin : (B.beginTransaction w.db).1 = .ok bb)
    (hunit : (u (DBTransaction.unitEntry B w)).1 = .ok true)
    (hcommit : (B.commit (u (DBTransaction.unitEntry B w)).2.db).1 = .error e)
    (he : e.isStd = true) :
    (DBTransaction.executeWithinTransaction B u w).1 = .ok true ∧
    DBTransaction.commit B .STATE_START (u (DBTransaction.unitEntry B w)).2 =
      (.ok (), .STATE_NO_START,
        ((u (DBTransaction.unitEntry B w)).2.called .commit
          (B.commit (u (DBTransaction.unitEntry B w)).2.db).2).logError
          ("[commit] An error occurred while committing the transaction, error: " ++ e.what)) ∧
    (DBTransaction.executeWithinTransaction B u w).2.calls =
      (u (DBTransaction.unitEntry B w)).2.calls ++ [.commit] ∧
    ((u (DBTransaction.unitEntry B w)).2.calls = (DBTransaction.unitEntry B w).calls →
      (DBTransaction.executeWithinTransaction B u w).2.calls =
        w.calls ++ [.beginTransaction, .toBeExecuted, .commit]) := by
  obtain ⟨h1, h2⟩ := executeWithinTransaction_of_unit_ok B u w bb true hbegin hunit
    (fun e2 he2 => by rw [hcommit] at he2; cases he2; exact he)
  refine ⟨h1, ?_, h2, ?_⟩
  · simp [DBTransaction.commit, hcommit, he]
  · intro hplain
    rw [h2, hplain, unitEntry_calls]
    simp

/-- C22, on the test backend whose `commit` throws. -/
theorem executeWithinTransaction_commit_throws_witness :
    (DBTransaction.executeWithinTransaction throwingEndBackend (writeRows [3] true)
      (testSession [1, 2])).1 = .ok true ∧
    (DBTransaction.executeWithinTransaction throwingEndBackend (writeRows [3] true)
      (testSession [1, 2])).2.calls = [.beginTransaction, .toBeExecuted, .commit] ∧
    (DBTransaction.commit throwingEndBackend .STATE_START
      (writeRows [3] true
        (DBTransaction.unitEntry throwingEndBackend (testSession [1, 2]))).2).2.1
      = .STATE_NO_START := by
  have h := executeWithinTransaction_commit_throws throwingEndBackend (writeRows [3] true)
    (testSession [1, 2]) true (.std_exception "commit failed") rfl rfl rfl rfl
  exact ⟨h.1, h.2.2.2 rfl, by rw [h.2.1]⟩

/-! ## The claim about a numeric prefix -/

/-- The conversion of a cell depends on its text only through the number
scanned. -/
theorem convertCell_congr (dm : DataModel) (T : NumType) (s t : List Char)
    (h : scanNumber s = scanNumber t) : convertCell dm T s = convertCell dm T t := by
  cases T <;> simp only [convertCell, stoi, stol, stoll, stoul, stoull, stoSigned, stoUnsigned, h]

theorem dropWhile_isspace_append (ws : List Char) (a : Char) (rest : List Char)
    (hws : ∀ c ∈ ws, isspace c = true) (ha : isspace a = false) :
    (ws ++ a :: rest).dropWhile isspace = a :: rest := by
  induction ws with
  | nil => simp [List.dropWhile_cons, ha]
  | cons c cs ih =>
    have hc : isspace c = true := hws c (List.mem_cons_self _ _)
    simp only [List.cons_append, List.dropWhile_cons, hc, if_true]
    exact ih (fun x hx => hws x (List.mem_cons_of_mem _ hx))

theorem takeWhile_isdigit_append (ds trailing : List Char)
    (hds : ∀ c ∈ ds, isdigit c = true) (htrail : ∀ c ∈ trailing.head?, isdigit c = false) :
    (ds ++ trailing).takeWhile isdigit = ds := by
  induction ds with
  | nil =>
    cases trailing with
    | nil => rfl
    | cons c cs =>
      have hc : isdigit c = false := htrail c (by simp)
      simp [List.takeWhile_cons, hc]
  | cons d rest ih =>
    have hd : isdigit d = true := hds d (List.mem_cons_self _ _)
    simp only [List.cons_append, List.takeWhile_cons, hd, if_true]
    rw [ih (fun x hx => hds x (List.mem_cons_of_mem _ hx))]

/-- White space, a digit run, then text that does not start with a digit: the
number scanned is the value of the run. -/
theorem scanNumber_spaces_digits (ws ds trailing : List Char) (hne : ds ≠ [])
    (hws : ∀ c ∈ ws, isspace c = true) (hds : ∀ c ∈ ds, isdigit c = true)
    (htrail : ∀ c ∈ trailing.head?, isdigit c = false) :
    scanNumber (ws ++ ds ++ trailing) = some (false, digitsValue ds 0) := by
  cases ds with
  | nil => exact absurd rfl hne
  | cons d rest =>
    have hd : isdigit d = true := hds d (List.mem_cons_self _ _)
    have hshape : ws ++ (d :: rest) ++ trailing = ws ++ d :: (rest ++ trailing) := by simp
    have hdrop : (ws ++ d :: (rest ++ trailing)).dropWhile isspace = d :: (rest ++ trailing) :=
      dropWhile_isspace_append ws d _ hws (isspace_of_isdigit d hd)
    have htake : (d :: (rest ++ trailing)).takeWhile isdigit = d :: rest := by
      rw [← List.cons_append]
      exact takeWhile_isdigit_append (d :: rest) trailing hds htrail
    rw [hshape]
    unfold scanNumber
    rw [hdrop, splitSign_of_isdigit d _ hd]
    dsimp only
    rw [htake]
    rfl

/-- White space, a minus sign, a digit run, then text that does not start with a
digit. -/
theorem scanNumber_spaces_minus_digits (ws ds trailing : List Char) (hne : ds ≠ [])
    (hws : ∀ c ∈ ws, isspace c = true) (hds : ∀ c ∈ ds, isdigit c = true)
    (htrail : ∀ c ∈ trailing.head?, isdigit c = false) :
    scanNumber (ws ++ ('-' :: ds) ++ trailing) = some (true, digitsValue ds 0) := by
  have hshape : ws ++ ('-' :: ds) ++ trailing = ws ++ '-' :: (ds ++ trailing) := by simp
  have hdrop : (ws ++ '-' :: (ds ++ trailing)).dropWhile isspace = '-' :: (ds ++ trailing) :=
    dropWhile_isspace_append ws '-' _ hws (by decide)
  have htake : (ds ++ trailing).takeWhile isdigit = ds :=
    takeWhile_isdigit_append ds trailing hds htrail
  have hsign : splitSign ('-' :: (ds ++ trailing)) = (true, ds ++ trailing) := rfl
  rw [hshape]
  unfold scanNumber
  rw [hdrop, hsign]
  dsimp only
  rw [htake]
  cases ds with
  | nil => exact absurd rfl hne
  | cons _ _ => rfl

/-- The decimal text of `v` between white space and text that does not start with
a digit scans as the decimal text alone does. -/
theorem scanNumber_embedded (ws trailing : List Char) (v : Int)
    (hws : ∀ c ∈ ws, isspace c = true) (htrail : ∀ c ∈ trailing.head?, isdigit c = false) :
    scanNumber (ws ++ decimalText v ++ trailing) = scanNumber (decimalText v) := by
  rw [scanNumber_decimalText]
  cases v with
  | ofNat n =>
    rw [show Int.ofNat n = (n : Int) from rfl, decimalText_ofNat]
    obtain ⟨hne, hdig, hval⟩ := toDigits_run n
    rw [scanNumber_spaces_digits ws _ trailing hne hws hdig htrail, hval]
    simp
  | negSucc n =>
    rw [decimalText_negSucc]
    obtain ⟨hne, hdig, hval⟩ := toDigits_run (n + 1)
    rw [scanNumber_spaces_minus_digits ws _ trailing hne hws hdig htrail, hval]
    simp [Int.negSucc_lt_zero]

theorem scanNumber_eq_none_iff (s : List Char) : scanNumber s = none ↔ nonNumeric s := by
  constructor
  · intro h c hc
    unfold scanNumber at h
    dsimp only at h
    cases hb : (splitSign (s.dropWhile isspace)).2 with
    | nil => rw [hb] at hc; simp at hc
    | cons d rest =>
      rw [hb] at hc h
      simp only [List.head?_cons, Option.mem_def, Option.some.injEq] at hc
      subst hc
      cases hd : isdigit d with
      | false => rfl
      | true => simp [List.takeWhile_cons, hd] at h
  · exact scanNumber_nonNumeric s

theorem stoSigned_invalid (fn : String) (bits : Nat) (s : List Char) (w : String)
    (h : stoSigned fn bits s = .error (.invalid_argument w)) : scanNumber s = none := by
  unfold stoSigned at h
  cases hs : scanNumber s with
  | none => rfl
  | some p =>
    obtain ⟨neg, m⟩ := p
    rw [hs] at h
    dsimp only at h
    generalize (if neg = true then -(m : Int) else (m : Int)) = x at h
    by_cases hx : x < -(2 : Int) ^ (bits - 1) ∨ (2 : Int) ^ (bits - 1) - 1 < x
    · rw [if_pos hx] at h; cases h
    · rw [if_neg hx] at h; cases h

theorem stoUnsigned_invalid (fn : String) (bits : Nat) (s : List Char) (w : String)
    (h : stoUnsigned fn bits s = .error (.invalid_argument w)) : scanNumber s = none := by
  unfold stoUnsigned at h
  cases hs : scanNumber s with
  | none => rfl
  | some p =>
    obtain ⟨neg, m⟩ := p
    rw [hs] at h
    dsimp only at h
    by_cases hx : 2 ^ bits ≤ m
    · rw [if_pos hx] at h; cases h
    · rw [if_neg hx] at h; cases h

theorem map_error {f : Int → Int} {r : Except Exception Int} {e : Exception}
    (h : r.map f = .error e) : r = .error e := by
  cases r with
  | error e2 => simpa [Except.map] using h
  | ok x => simp [Except.map] at h

/-- The `try` block throws `invalid_argument` exactly on text with no number to
read. -/
theorem convertCell_invalid_iff (dm : DataModel) (T : NumType) (cell : List Char) :
    (∃ w, convertCell dm T cell = .error (.invalid_argument w)) ↔ nonNumeric cell := by
  constructor
  · rintro ⟨w, hw⟩
    rw [← scanNumber_eq_none_iff]
    cases T <;> simp only [convertCell, stoi, stol, stoll, stoul, stoull] at hw <;>
      first
        | exact stoSigned_invalid _ _ _ _ (map_error hw)
        | exact stoUnsigned_invalid _ _ _ _ (map_error hw)
  · exact convertCell_nonNumeric dm T cell

/-- C26: for an integer type `T`, a cell whose text is optional white space, the
decimal text of an integer `v` in the range of `T`, and then any text that does
not continue the digits (as `abc` in `12abc`) decodes to `v`, not to the zero
value; and the conversion reports an invalid value exactly for text with no
leading number. -/
theorem getNumber_leading_number (dm : DataModel) (T : NumType) (res : DBResult) (s : String)
    (idx : Nat) (logger : Logger) (ws trailing : List Char) (v : Int) (hT : T ≠ .bool)
    (hcol : res.listNames.lookup s = some idx)
    (hcell : res.row idx = some (ws ++ decimalText v ++ trailing))
    (hws : ∀ c ∈ ws, isspace c = true) (htrail : ∀ c ∈ trailing.head?, isdigit c = false)
    (hv : T.representable v) :
    res.getNumber dm T s logger = (.ok v, logger) ∧
    (∀ cell, (∃ w, convertCell dm T cell = .error (.invalid_argument w)) ↔ nonNumeric cell) := by
  refine ⟨?_, convertCell_invalid_iff dm T⟩
  have hconv : convertCell dm T (ws ++ decimalText v ++ trailing) = .ok v := by
    rw [convertCell_congr dm T _ _ (scanNumber_embedded ws trailing v hws htrail)]
    exact convertCell_decimalText dm T hT v hv
  simp only [DBResult.getNumber, hcol, hcell, hconv]

/-- C26, on the texts `12abc` and ` -7;` (a space, `-7`, a semicolon). -/
theorem getNumber_leading_number_witness :
    (DBResult.single "c" (some ['1', '2', 'a', 'b', 'c'])).getNumber .LP64 .uint8 "c" []
      = (.ok 12, []) ∧
    (DBResult.single "c" (some [' ', '-', '7', ';'])).getNumber .LLP64 .int32 "c" []
      = (.ok (-7), []) :=
  ⟨(getNumber_leading_number .LP64 .uint8 (DBResult.single "c" (some ['1', '2', 'a', 'b', 'c']))
      "c" 0 [] [] ['a', 'b', 'c'] 12 (by decide) rfl rfl (by simp) (by simp; decide)
      (by decide)).1,
   (getNumber_leading_number .LLP64 .int32 (DBResult.single "c" (some [' ', '-', '7', ';']))
      "c" 0 [] [' '] [';'] (-7) (by decide) rfl (by rfl) (by simp; decide) (by simp; decide)
      (by decide)).1⟩

/-! ## The claims about `Actions` -/

theorem tryEmplace_self [DecidableEq κ] (map : κ → Option Action) (key : κ) (action : Action)
    (h : map key = none) : tryEmplace map key action key = some action := by
  simp [tryEmplace, h]

theorem tryEmplace_other [DecidableEq κ] (map : κ → Option Action) (key k : κ)
    (action : Action) (h : k ≠ key) : tryEmplace map key action k = map k := by
  simp [tryEmplace, h]

/-- What the loop of `registerLuaItemEvent` does to the registry and to
`tmpVector`. -/
theorem registerItemIds_spec (action : Action) (ids : List Nat) :
    ∀ (tmpVector : List Nat) (self : Actions) (logger : Logger),
      (∀ id a, self.useItemMap id = some a →
        (Actions.registerItemIds action ids tmpVector self logger).2.1.useItemMap id = some a) ∧
      (∀ id ∈ ids, self.useItemMap id = none →
        (Actions.registerItemIds action ids tmpVector self logger).2.1.useItemMap id
          = some action) ∧
      (∀ id, id ∉ ids →
        (Actions.registerItemIds action ids tmpVector self logger).2.1.useItemMap id
          = self.useItemMap id) ∧
      ((Actions.registerItemIds action ids tmpVector self logger).1 = [] ↔
        tmpVector = [] ∧ ∀ id ∈ ids, self.useItemMap id ≠ none) ∧
      (Actions.registerItemIds action ids tmpVector self logger).2.1.uniqueItemMap
        = self.uniqueItemMap ∧
      (Actions.registerItemIds action ids tmpVector self logger).2.1.actionItemMap
        = self.actionItemMap ∧
      (Actions.registerItemIds action ids tmpVector self logger).2.1.actionPositionMap
        = self.actionPositionMap := by
  induction ids with
  | nil =>
    intro tmpVector self logger
    simp [Actions.registerItemIds]
  | cons itemId rest ih =>
    intro tmpVector self logger
    cases hreg : self.useItemMap itemId with
    | some old =>
      have hhas : self.hasItemId itemId = true := by simp [Actions.hasItemId, hreg]
      simp only [Actions.registerItemIds, hhas, if_true]
      obtain ⟨h1, h2, h3, h4, h5, h6, h7⟩ := ih tmpVector self
        (logger.warn ("[registerLuaItemEvent] - Duplicate registered item with id: "
          ++ ToString.toString itemId ++ " in range from id: " ++ (rangeText action.itemIds).1
          ++ ", to id: " ++ (rangeText action.itemIds).2 ++ ", for script: "
          ++ action.scriptName))
      refine ⟨h1, ?_, ?_, ?_, h5, h6, h7⟩
      · intro id hid hnone
        rcases List.mem_cons.mp hid with rfl | hrest
        · rw [hreg] at hnone; cases hnone
        · exact h2 id hrest hnone
      · intro id hid
        exact h3 id (fun hmem => hid (List.mem_cons_of_mem _ hmem))
      · rw [h4]
        constructor
        · rintro ⟨ht, hall⟩
          refine ⟨ht, ?_⟩
          intro id hid
          rcases List.mem_cons.mp hid with rfl | hrest
          · rw [hreg]; simp
          · exact hall id hrest
        · rintro ⟨ht, hall⟩
          exact ⟨ht, fun id hid => hall id (List.mem_cons_of_mem _ hid)⟩
    | none =>
      have hhas : self.hasItemId itemId = false := by simp [Actions.hasItemId, hreg]
      simp only [Actions.registerItemIds, hhas, Bool.false_eq_true, if_false]
      obtain ⟨h1, h2, h3, h4, h5, h6, h7⟩ := ih (tmpVector ++ [itemId])
        (self.setItemId itemId action) logger
      have hself : (self.setItemId itemId action).useItemMap itemId = some action :=
        tryEmplace_self _ _ _ hreg
      have hother : ∀ k, k ≠ itemId →
          (self.setItemId itemId action).useItemMap k = self.useItemMap k :=
        fun k hk => tryEmplace_other _ _ _ _ hk
      refine ⟨?_, ?_, ?_, ?_, h5, h6, h7⟩
      · intro id a ha
        have hne : id ≠ itemId := by
          rintro rfl
          rw [hreg] at ha; cases ha
        exact h1 id a (by rw [hother id hne]; exact ha)
      · intro id hid hnone
        by_cases heq : id = itemId
        · subst heq
          exact h1 id action hself
        · rcases List.mem_cons.mp hid with h | hrest
          · exact absurd h heq
          · exact h2 id hrest (by rw [hother id heq]; exact hnone)
      · intro id hid
        have hne : id ≠ itemId := fun h => hid (h ▸ List.mem_cons_self _ _)
        rw [h3 id (fun hmem => hid (List.mem_cons_of_mem _ hmem)), hother id hne]
      · rw [h4]
        constructor
        · rintro ⟨ht, -⟩
          simp at ht
        · rintro ⟨-, hall⟩
          exact absurd hreg (hall itemId (List.mem_cons_self _ _))

/-- C23: an action that declares the item id 100 and the unique id 200, both
unregistered, is registered by `registerLuaEvent` under the item id only: the
call returns true and the unique id stays unregistered, because the other three
register functions are operands of `||` after one that returned true. -/
theorem registerLuaEvent_skips_unique_ids :
    (Actions.registerLuaEvent Actions.empty (Action.new "door.lua" [100] [200] [] []) []).1
      = true ∧
    (Actions.registerLuaEvent Actions.empty
      (Action.new "door.lua" [100] [200] [] []) []).2.1.useItemMap 100
      = some (Action.new "door.lua" [100] [200] [] []) ∧
    (Actions.registerLuaEvent Actions.empty
      (Action.new "door.lua" [100] [200] [] []) []).2.1.uniqueItemMap 200 = none ∧
    (Actions.registerLuaUniqueEvent Actions.empty
      (Action.new "door.lua" [100] [200] [] []) []).2.1.uniqueItemMap 200
      = some (Action.new "door.lua" [100] [200] [] []) := by
  exact ⟨rfl, rfl, rfl, rfl⟩

/-- C24: for every registry and action, `registerLuaItemEvent` overwrites nothing:
an item id mapped before the call is mapped to the same action after it, an id of
the action that was unmapped is mapped to the action, every other id and the
other three maps are as before; and the call returns true exactly when one of the
item ids of the action was not registered before (false for an empty list). -/
theorem registerLuaItemEvent_no_overwrite (self : Actions) (action : Action)
    (logger : Logger) :
    (∀ id a, self.useItemMap id = some a →
      (self.registerLuaItemEvent action logger).2.1.useItemMap id = some a) ∧
    (∀ id ∈ action.itemIds, self.useItemMap id = none →
      (self.registerLuaItemEvent action logger).2.1.useItemMap id = some action) ∧
    (∀ id, id ∉ action.itemIds →
      (self.registerLuaItemEvent action logger).2.1.useItemMap id = self.useItemMap id) ∧
    ((self.registerLuaItemEvent action logger).1 = true ↔
      ∃ id ∈ action.itemIds, self.useItemMap id = none) ∧
    (action.itemIds = [] → (self.registerLuaItemEvent action logger).1 = false) ∧
    (self.registerLuaItemEvent action logger).2.1.uniqueItemMap = self.uniqueItemMap ∧
    (self.registerLuaItemEvent action logger).2.1.actionItemMap = self.actionItemMap ∧
    (self.registerLuaItemEvent action logger).2.1.actionPositionMap
      = self.actionPositionMap := by
  cases hids : action.itemIds with
  | nil => simp [Actions.registerLuaItemEvent, hids]
  | cons first rest =>
    obtain ⟨h1, h2, h3, h4, h5, h6, h7⟩ :=
      registerItemIds_spec action (first :: rest) [] self logger
    have hrun : self.registerLuaItemEvent action logger =
        (!(Actions.registerItemIds action (first :: rest) [] self logger).1.isEmpty,
          (Actions.registerItemIds action (first :: rest) [] self logger).2.1,
          (Actions.registerItemIds action (first :: rest) [] self logger).2.2) := by
      simp [Actions.registerLuaItemEvent, hids]
    rw [hrun]
    refine ⟨h1, h2, h3, ?_, ?_, h5, h6, h7⟩
    · have hempty : (Actions.registerItemIds action (first :: rest) [] self logger).1.isEmpty
          = true ↔ ∀ id ∈ first :: rest, self.useItemMap id ≠ none := by
        rw [List.isEmpty_iff, h4]
        simp
      constructor
      · intro htrue
        by_contra hno
        have hall : ∀ id ∈ first :: rest, self.useItemMap id ≠ none := by
          intro id hid hnone
          exact hno ⟨id, hid, hnone⟩
        simp [hempty.mpr hall] at htrue
      · rintro ⟨id, hid, hnone⟩
        cases hb : (Actions.registerItemIds action (first :: rest) [] self logger).1.isEmpty with
        | false => rfl
        | true => exact absurd hnone (hempty.mp hb id hid)
    · intro h; cases h

/-- C25 (amended): `getAction` resolves in the order unique id, action id, item
type id, position, rune spell, an attribute that is absent or has no
registration falling through; the position registration applies only to an item
that has a tile, and then yields no action at all when a player holds the item as
its top parent; with no tile, or no position registration, the rune spell is the
result. -/
theorem getAction_priority (self : Actions) (getRuneSpell : Nat → Option Action) (item : Item)
    (logger : Logger) :
    (∀ uid a, item.uniqueId = some uid → self.uniqueItemMap uid = some a →
      (self.getAction getRuneSpell item logger).1 = some a) ∧
    (item.uniqueId.bind self.uniqueItemMap = none →
      ∀ aid a, item.actionId = some aid → self.actionItemMap aid = some a →
        (self.getAction getRuneSpell item logger).1 = some a) ∧
    (item.uniqueId.bind self.uniqueItemMap = none →
      item.actionId.bind self.actionItemMap = none →
      ∀ a, self.useItemMap item.id = some a →
        (self.getAction getRuneSpell item logger).1 = some a) ∧
    (item.uniqueId.bind self.uniqueItemMap = none →
      item.actionId.bind self.actionItemMap = none → self.useItemMap item.id = none →
      ∀ a, self.actionPositionMap item.position = some a → item.tile = true →
        ((item.holdingPlayer = none ∨ item.topParentIsHolder = false) →
          (self.getAction getRuneSpell item logger).1 = some a) ∧
        (item.holdingPlayer ≠ none → item.topParentIsHolder = true →
          (self.getAction getRuneSpell item logger).1 = none)) ∧
    (item.uniqueId.bind self.uniqueItemMap = none →
      item.actionId.bind self.actionItemMap = none → self.useItemMap item.id = none →
      (self.actionPositionMap item.position = none ∨ item.tile = false) →
        (self.getAction getRuneSpell item logger).1 = getRuneSpell item.id) := by
  refine ⟨?_, ?_, ?_, ?_, ?_⟩
  · intro uid a hu ha
    simp [Actions.getAction, hu, ha]
  · intro h1 aid a hu ha
    simp [Actions.getAction, h1, hu, ha]
  · intro h1 h2 a ha
    simp [Actions.getAction, h1, h2, ha]
  · intro h1 h2 h3 a ha ht
    constructor
    · intro hheld
      cases hp : item.holdingPlayer with
      | none => simp [Actions.getAction, h1, h2, h3, ha, ht, hp]
      | some name =>
        rcases hheld with h | h
        · rw [hp] at h; cases h
        · simp [Actions.getAction, h1, h2, h3, ha, ht, hp, h]
    · intro hp htop
      cases hq : item.holdingPlayer with
      | none => exact absurd hq hp
      | some name => simp [Actions.getAction, h1, h2, h3, ha, ht, hq, htop]
  · intro h1 h2 h3 h4
    rcases h4 with h | h
    · simp [Actions.getAction, h1, h2, h3, h]
    · cases hpos : self.actionPositionMap item.position <;>
        simp [Actions.getAction, h1, h2, h3, h, hpos]

/-- C25 as stated fails at the position level: with a position registration and
a rune spell for the item, an item on a tile that a player holds as its top
parent resolves to no action, and an item with no tile resolves to the rune
spell. -/
theorem getAction_position_guarded :
    ((Actions.empty.setPosition ⟨5, 5, 7⟩ (Action.new "lever.lua" [] [] [] [⟨5, 5, 7⟩])).getAction
      (fun _ => some (Action.new "rune.lua" [] [] [] []))
      { Item.onMap 2000 ⟨5, 5, 7⟩ with holdingPlayer := some "Ana", topParentIsHolder := true }
      []).1 = none ∧
    ((Actions.empty.setPosition ⟨5, 5, 7⟩ (Action.new "lever.lua" [] [] [] [⟨5, 5, 7⟩])).getAction
      (fun _ => some (Action.new "rune.lua" [] [] [] []))
      { Item.onMap 2000 ⟨5, 5, 7⟩ with tile := false } []).1
      = some (Action.new "rune.lua" [] [] [] []) ∧
    ((Actions.empty.setPosition ⟨5, 5, 7⟩ (Action.new "lever.lua" [] [] [] [⟨5, 5, 7⟩])).getAction
      (fun _ => some (Action.new "rune.lua" [] [] [] []))
      (Item.onMap 2000 ⟨5, 5, 7⟩) []).1
      = some (Action.new "lever.lua" [] [] [] [⟨5, 5, 7⟩]) := by
  exact ⟨rfl, rfl, rfl⟩

/-- C29: `canUse(player, pos)` returns NOERROR whenever `pos.x = 0xFFFF`; otherwise
FIRSTGOUPSTAIRS when the floor of the player is greater than `pos.z`,
FIRSTGODOWNSTAIRS when it is smaller, TOOFARAWAY when the floors are equal and the
positions differ by more than 1 in x or in y, and NOERROR in every remaining
case. -/
theorem canUse_cases (playerPos pos : Position) :
    (pos.x = 65535 → Actions.canUse playerPos pos = .RETURNVALUE_NOERROR) ∧
    (pos.x ≠ 65535 → pos.z < playerPos.z →
      Actions.canUse playerPos pos = .RETURNVALUE_FIRSTGOUPSTAIRS) ∧
    (pos.x ≠ 65535 → playerPos.z < pos.z →
      Actions.canUse playerPos pos = .RETURNVALUE_FIRSTGODOWNSTAIRS) ∧
    (pos.x ≠ 65535 → playerPos.z = pos.z →
      (playerPos.x + 1 < pos.x ∨ pos.x + 1 < playerPos.x ∨
        playerPos.y + 1 < pos.y ∨ pos.y + 1 < playerPos.y) →
      Actions.canUse playerPos pos = .RETURNVALUE_TOOFARAWAY) ∧
    (pos.x ≠ 65535 → playerPos.z = pos.z →
      ¬ (playerPos.x + 1 < pos.x ∨ pos.x + 1 < playerPos.x ∨
        playerPos.y + 1 < pos.y ∨ pos.y + 1 < playerPos.y) →
      Actions.canUse playerPos pos = .RETURNVALUE_NOERROR) := by
  have hrange : Position.areInRange 1 1 playerPos pos = true ↔
      ¬ (playerPos.x + 1 < pos.x ∨ pos.x + 1 < playerPos.x ∨
        playerPos.y + 1 < pos.y ∨ pos.y + 1 < playerPos.y) := by
    simp only [Position.areInRange, Bool.and_eq_true, decide_eq_true_eq]
    omega
  refine ⟨?_, ?_, ?_, ?_, ?_⟩
  · intro hx
    simp [Actions.canUse, hx]
  · intro hx hz
    have hne : playerPos.z ≠ pos.z := by omega
    simp [Actions.canUse, hx, hne, hz]
  · intro hx hz
    have hne : playerPos.z ≠ pos.z := by omega
    have hgt : ¬ pos.z < playerPos.z := by omega
    simp [Actions.canUse, hx, hne, hgt]
  · intro hx hz hfar
    have hr : Position.areInRange 1 1 playerPos pos = false := by
      cases h : Position.areInRange 1 1 playerPos pos with
      | false => rfl
      | true => exact absurd hfar (hrange.mp h)
    simp [Actions.canUse, hx, hz, hr]
  · intro hx hz hnear
    have hr : Position.areInRange 1 1 playerPos pos = true := hrange.mpr hnear
    simp [Actions.canUse, hx, hz, hr]

/-! ## The claims about `House` -/

/-- C27: `kickPlayer(player, target)` returns false, without a call on the game,
exactly when the target is null, the target does not stand on a tile of this
house, the access level of the kicker is strictly lower than that of the target,
or the target has the flag `CanEditHouses`; otherwise it returns true, the
teleport being called whether or not it succeeds.  A null kicker has the level
`HOUSE_OWNER`, and a kicker of the level of the target may kick. -/
theorem kickPlayer_result (config : HouseConfig)
    (internalTeleport : Player → Position → ReturnValue) (self : House)
    (player target : Option Player) :
    ((self.kickPlayer config internalTeleport player target).1 = false ↔
      (target = none ∨ ∃ t, target = some t ∧
        (t.houseTile ≠ some self.id ∨
          (self.getHouseAccessLevel config player).toNat
            < (self.getHouseAccessLevel config (some t)).toNat ∨
          t.canEditHouses = true))) ∧
    ((self.kickPlayer config internalTeleport player target).1 = false →
      (self.kickPlayer config internalTeleport player target).2 = []) ∧
    (∀ t, target = some t → (self.kickPlayer config internalTeleport player target).1 = true →
      (self.kickPlayer config internalTeleport player target).2.head?
        = some (.internalTeleport t.guid self.posEntry)) ∧
    self.getHouseAccessLevel config none = .HOUSE_OWNER ∧
    (∀ t, target = some t → t.houseTile = some self.id → t.canEditHouses = false →
      self.getHouseAccessLevel config player = self.getHouseAccessLevel config (some t) →
      (self.kickPlayer config internalTeleport player target).1 = true) := by
  cases target with
  | none =>
    refine ⟨by simp [House.kickPlayer], by simp [House.kickPlayer], ?_, rfl, ?_⟩
    · intro t ht; cases ht
    · intro t ht; cases ht
  | some t =>
    by_cases htile : t.houseTile = some self.id
    · by_cases hlow : (self.getHouseAccessLevel config player).toNat
          < (self.getHouseAccessLevel config (some t)).toNat
      · have hk : self.kickPlayer config internalTeleport player (some t) = (false, []) := by
          simp [House.kickPlayer, htile, hlow]
        rw [hk]
        refine ⟨?_, ?_, ?_, rfl, ?_⟩
        · simp [hlow]
        · simp
        · intro t2 _ h; cases h
        · intro t2 ht2 _ _ heq
          cases ht2
          rw [heq] at hlow
          exact absurd hlow (lt_irrefl _)
      · by_cases hflag : t.canEditHouses = true
        · have hk : self.kickPlayer config internalTeleport player (some t) = (false, []) := by
            simp [House.kickPlayer, htile, hflag]
          rw [hk]
          refine ⟨?_, ?_, ?_, rfl, ?_⟩
          · simp [hflag]
          · simp
          · intro t2 _ h; cases h
          · intro t2 ht2 _ hno _
            cases ht2
            rw [hflag] at hno
            cases hno
        · have hflag2 : t.canEditHouses = false := by simpa using hflag
          have hk : (self.kickPlayer config internalTeleport player (some t)).1 = true ∧
              (self.kickPlayer config internalTeleport player (some t)).2.head?
                = some (.internalTeleport t.guid self.posEntry) := by
            by_cases htp : internalTeleport t self.posEntry = .RETURNVALUE_NOERROR
            · simp [House.kickPlayer, htile, hlow, hflag2, htp]
            · simp [House.kickPlayer, htile, hlow, hflag2, htp]
          refine ⟨?_, ?_, ?_, rfl, ?_⟩
          · rw [hk.1]
            simp [htile, hlow, hflag2]
          · rw [hk.1]
            intro h; cases h
          · intro t2 ht2 _
            cases ht2
            exact hk.2
          · intro _ _ _ _ _
            exact hk.1
    · have hk : self.kickPlayer config internalTeleport player (some t) = (false, []) := by
        simp [House.kickPlayer, htile]
      rw [hk]
      refine ⟨?_, ?_, ?_, rfl, ?_⟩
      · simp [htile]
      · simp
      · intro t2 _ h; cases h
      · intro t2 ht2 ht _ _
        cases ht2
        exact absurd ht htile

end Canary
